import Mathlib

/-!
# jniPlusPlus: a shallow embedding of the JNI wrapper

The development embeds the four headers of the library
(`JNI++.h`, `jni++/JVM.h`, `jni++/JavaClass.h`, `jni++/JavaObj.h`).

* C++ template specialisation over host types becomes pattern matching over
  the tagged value type `HostValue`; a template that is declared but has no
  definition for a type, or whose primary body is ill-formed for it, yields
  `none` / `Result.illFormed` (such a program does not build).
* The embedded virtual machine is an external party.  It is a deterministic
  oracle `Runtime` whose answers may depend on the whole history of events;
  the wrapper's interaction with it is recorded in the `trace` of a `World`,
  threaded through every operation (`JniM`).
* `std::map` members are association lists with the `at` / `operator[]`
  operations the code uses.
-/

namespace JniPP

/-! ## std::map -/

/-- The `std::map<std::string, V>` members of the wrappers. -/
abbrev StdMap (V : Type) := List (String × V)

/-- Model of `std::map::at`: `none` stands for the `std::out_of_range` exception. -/
def StdMap.at {V : Type} (m : StdMap V) (key : String) : Option V :=
  match m with
  | [] => none
  | (k, v) :: rest => if k = key then some v else StdMap.at rest key

/-- Model of `m[key] = value`: replaces the mapped value of an existing key, inserts otherwise. -/
def StdMap.assign {V : Type} (m : StdMap V) (key : String) (value : V) : StdMap V :=
  match m with
  | [] => [(key, value)]
  | (k, v) :: rest =>
    if k = key then (k, value) :: rest else (k, v) :: StdMap.assign rest key value

/-! ## Handles (data part) -/

/-- Data members of `class JavaClass`.  The `env` member is the `World`
threaded through the operations; `classId = 0` is `nullptr`. -/
structure JavaClass where
  methodCache : StdMap Nat
  classPath : String
  classId : Nat
  deriving DecidableEq, Repr

/-- Data members of `class JavaObj : public JavaClass`; `base` is the
`JavaClass` sub-object, `methodCache` the member that hides the base one. -/
structure JavaObj where
  base : JavaClass
  objId : Nat
  methodCache : StdMap Nat
  deriving DecidableEq, Repr

/-- Model of `std::replace(first, last, old, new)` over the characters of a string. -/
def replace (s : String) (oldValue newValue : Char) : String :=
  ⟨s.data.map (fun c => if c = oldValue then newValue else c)⟩

/-- Constructor `JavaClass(std::string classpath)`: stores the classpath, `classId(nullptr)`,
then replaces every dot by a slash in the stored copy. -/
def JavaClass.ofClassPath (classpath : String) : JavaClass :=
  { methodCache := [], classPath := replace classpath '.' '/', classId := 0 }

/-- Constructor `JavaClass()`, which delegates to `JavaClass("uninitialized")`. -/
def JavaClass.default : JavaClass := JavaClass.ofClassPath "uninitialized"

/-- Constructor `JavaObj(std::string classPath)`: `JavaClass(classPath), objId(nullptr)`. -/
def JavaObj.ofClassPath (classPath : String) : JavaObj :=
  { base := JavaClass.ofClassPath classPath, objId := 0, methodCache := [] }

/-- Member `JavaObj::getSignature`. -/
def JavaObj.getSignature (self : JavaObj) : String :=
  "L" ++ self.base.classPath ++ ";"

/-- Member `JavaObj::getClassPath`. -/
def JavaObj.getClassPath (self : JavaObj) : String :=
  self.base.classPath

/-- Member `JavaObj::getObjId`. -/
def JavaObj.getObjId (self : JavaObj) : Nat :=
  self.objId

/-! ## Host types and values -/

/-- The C++ types the templates are specialised for (`long` is a type of its
own, distinct from `int32_t` and `int64_t`, as both have a specialisation). -/
inductive HostType
  | bool | uint8 | int8 | int16 | int32 | long | uint16 | uint32 | int64
  | float | double | string | jobject | javaObj
  deriving DecidableEq, Repr

/-- A host value together with its C++ type.  Integers carry their numeric
value, `float` / `double` their bit pattern, `jobject` the raw reference. -/
inductive HostValue
  | bool (v : Bool)
  | uint8 (v : Nat)
  | int8 (v : Int)
  | int16 (v : Int)
  | int32 (v : Int)
  | long (v : Int)
  | uint16 (v : Nat)
  | uint32 (v : Nat)
  | int64 (v : Int)
  | float (bits : Nat)
  | double (bits : Nat)
  | string (v : String)
  | jobject (ref : Nat)
  | javaObj (v : JavaObj)
  deriving DecidableEq, Repr

/-- The C++ type of a host value. -/
def HostValue.type : HostValue → HostType
  | .bool _ => .bool
  | .uint8 _ => .uint8
  | .int8 _ => .int8
  | .int16 _ => .int16
  | .int32 _ => .int32
  | .long _ => .long
  | .uint16 _ => .uint16
  | .uint32 _ => .uint32
  | .int64 _ => .int64
  | .float _ => .float
  | .double _ => .double
  | .string _ => .string
  | .jobject _ => .jobject
  | .javaObj _ => .javaObj

/-- The arithmetic host types (everything but `std::string`, `jobject` and `JavaObj`). -/
def HostType.isPrimitive : HostType → Bool
  | .string | .jobject | .javaObj => false
  | _ => true

/-! ## Type codes and signatures (`JavaClass.h` 154-185, 235-293; `JavaObj.h` 236-239) -/

/-- The specialisations of `JavaClass::getSymbol(const T&)`.  The primary
template is only declared, so a `jobject` has no code (`none`). -/
def getSymbol : HostValue → Option String
  | .bool _ => some "Z"
  | .uint8 _ => some "S"
  | .int8 _ => some "C"
  | .int16 _ => some "S"
  | .int32 _ => some "I"
  | .long _ => some "I"
  | .uint16 _ => some "I"
  | .uint32 _ => some "J"
  | .int64 _ => some "J"
  | .float _ => some "F"
  | .double _ => some "D"
  | .string _ => some "Ljava/lang/String;"
  | .jobject _ => none
  | .javaObj obj => some obj.getSignature

/-- The nullary overload `JavaClass::getSymbol()`. -/
def getSymbolVoid : String := "V"

/-- The recursive overloads `signature(std::stringstream& os, arg, args...)`
and `signature(std::stringstream& os)`; `os` is the text written so far. -/
def signatureStream (os : String) : List HostValue → Option String
  | [] => some (os ++ ")")
  | arg :: args =>
    match getSymbol arg with
    | none => none
    | some sym => signatureStream (os ++ sym) args

/-- Static member `JavaClass::voidSignature(args...)`: the stream starts as `"("`
opened at its end. -/
def voidSignature (args : List HostValue) : Option String :=
  match signatureStream "(" args with
  | none => none
  | some os => some (os ++ getSymbolVoid)

/-- Static member `JavaClass::signature(returnType, args...)`. -/
def signature (returnType : HostValue) (args : List HostValue) : Option String :=
  match signatureStream "(" args with
  | none => none
  | some os =>
    match getSymbol returnType with
    | none => none
    | some sym => some (os ++ sym)

/-! ## The embedded runtime and the interaction trace -/

/-- The `Call<Type>MethodA` / `CallStatic<Type>MethodA` family of the native interface. -/
inductive CallKind
  | Object | Boolean | Byte | Char | Short | Int | Long | Float | Double | Void
  deriving DecidableEq, Repr

/-- The `jvalue` union, tagged by the member that was written:
`z` jboolean, `c` jchar, `s` jshort, `i` jint, `j` jlong, `f` jfloat, `d` jdouble, `l` jobject. -/
inductive JValue
  | z (v : Bool)
  | c (v : Int)
  | s (v : Int)
  | i (v : Int)
  | j (v : Int)
  | f (bits : Nat)
  | d (bits : Nat)
  | l (ref : Nat)
  deriving DecidableEq, Repr

/-- The functions of `JNIEnv` the wrappers call, with the arguments handed over.
An argument array of `none` is the `nullptr` of the nullary `createJValues()`. -/
inductive JniCall
  | FindClass (name : String)
  | GetStaticMethodID (clazz : Nat) (name sig : String)
  | GetMethodID (clazz : Nat) (name sig : String)
  | GetFieldID (clazz : Nat) (name sig : String)
  | NewObjectA (clazz methodId : Nat) (args : Option (List JValue))
  | CallStaticMethodA (kind : CallKind) (clazz methodId : Nat) (args : Option (List JValue))
  | CallMethodA (kind : CallKind) (obj methodId : Nat) (args : Option (List JValue))
  | CallObjectMethod (obj methodId : Nat)
  | NewStringUTF (chars : String)
  | GetStringUTFChars (str : Nat)
  | NewDirectByteBuffer (address capacity : Nat)
  | GetObjectClass (obj : Nat)
  | SetObjectField (obj fieldId value : Nat)
  deriving DecidableEq, Repr

/-- What the wrapper does towards the runtime: a call of a `JNIEnv` function, or a
run of `checkExceptions(site)` (whose own introspection calls are part of the check). -/
inductive Event
  | call (c : JniCall)
  | check (site : String)
  deriving DecidableEq, Repr

/-- The embedded virtual machine as seen through `JNIEnv`: for the events so far and
the call made, the raw value returned (a reference or identifier, `0` for null, or a
primitive value), the characters a string access yields, and whether the call leaves
a managed exception pending. -/
structure Runtime where
  result : List Event → JniCall → Int
  chars : List Event → JniCall → String
  raises : List Event → JniCall → Bool

/-- State of the environment: the events so far and the pending-exception flag. -/
structure World where
  trace : List Event
  pending : Bool
  deriving DecidableEq, Repr

/-- The world before any interaction. -/
def World.init : World := { trace := [], pending := false }

/-- Outcome of running wrapper code: a value and the new world, a thrown
`std::runtime_error`, or no program at all (the instantiation does not build). -/
inductive Result (α : Type)
  | ok (value : α) (world : World)
  | thrown (what : String) (world : World)
  | illFormed (why : String)
  deriving DecidableEq, Repr

/-- Wrapper code running against the environment. -/
def JniM (α : Type) : Type := World → Result α

/-- Sequencing of wrapper code. -/
def JniM.bind {α β : Type} (x : JniM α) (f : α → JniM β) : JniM β := fun w =>
  match x w with
  | .ok a w1 => f a w1
  | .thrown what w1 => .thrown what w1
  | .illFormed why => .illFormed why

instance : Monad JniM where
  pure a := fun w => .ok a w
  bind := JniM.bind

/-- A `throw std::runtime_error(what)`. -/
def throwRuntimeError {α : Type} (what : String) : JniM α := fun w => .thrown what w

/-- An instantiation that does not compile or link. -/
def noInstance {α : Type} (why : String) : JniM α := fun _ => .illFormed why

/-- A call `env->f(...)` returning a reference, identifier or number. -/
def jni (rt : Runtime) (c : JniCall) : JniM Int := fun w =>
  .ok (rt.result w.trace c)
    { trace := w.trace ++ [Event.call c], pending := w.pending || rt.raises w.trace c }

/-- A call `env->f(...)` returning characters. -/
def jniChars (rt : Runtime) (c : JniCall) : JniM String := fun w =>
  .ok (rt.chars w.trace c)
    { trace := w.trace ++ [Event.call c], pending := w.pending || rt.raises w.trace c }

/-- Static member `JavaClass::checkExceptions(where, env)`: when an exception is
pending it is fetched, cleared and printed; nothing is thrown. -/
def checkExceptions (site : String) : JniM Unit := fun w =>
  .ok () { trace := w.trace ++ [Event.check site], pending := false }

/-- The call `env->ExceptionClear()`. -/
def exceptionClear : JniM Unit := fun w =>
  .ok () { w with pending := false }

/-- Conversion of an integer to an unsigned integer type of `bits` bits. -/
def toUnsigned (bits : Nat) (v : Int) : Int := v % 2 ^ bits

/-- Conversion of an integer to a signed integer type of `bits` bits. -/
def toSigned (bits : Nat) (v : Int) : Int :=
  if v % 2 ^ bits < 2 ^ (bits - 1) then v % 2 ^ bits else v % 2 ^ bits - 2 ^ bits

/-! ## `JavaClass` operations -/

/-- Constructor `JavaClass(std::string classPath, JNIEnv* jniEnv)`. -/
def JavaClass.withEnv (rt : Runtime) (classPath : String) : JniM JavaClass := do
  let self := JavaClass.ofClassPath classPath
  let classId ← jni rt (.FindClass self.classPath)
  checkExceptions "JavaClass::JavaClass FindClass"
  pure { self with classId := classId.toNat }

/-- Constructor `JavaObj(std::string classPath, jobject objId, JNIEnv* env)`. -/
def JavaObj.withEnv (rt : Runtime) (classPath : String) (objId : Nat) : JniM JavaObj := do
  let base ← JavaClass.withEnv rt classPath
  pure { base := base, objId := objId, methodCache := [] }

/-- Modelled from the spec: the four-argument constructor
`JavaObj(classPath, objId, classId, env)` that `createNew` calls is not declared in
`JavaObj.h`; the result is "wrapped as an InstanceHandle under the given classpath",
around the object and class references handed over. -/
def JavaObj.ofIds (classPath : String) (objId classId : Nat) : JavaObj :=
  { base := { JavaClass.ofClassPath classPath with classId := classId },
    objId := objId, methodCache := [] }

/-- The specialisations of `JavaClass::toJvalue`; there is none for `long`. -/
def toJvalue (rt : Runtime) : HostValue → JniM JValue
  | .bool v => pure (.z v)
  | .uint8 v => pure (.s (toSigned 16 v))
  | .int8 v => pure (.c (toUnsigned 16 v))
  | .int16 v => pure (.s (toSigned 16 v))
  | .uint16 v => pure (.i (toSigned 32 v))
  | .int32 v => pure (.i (toSigned 32 v))
  | .uint32 v => pure (.j (toSigned 64 v))
  | .int64 v => pure (.j (toSigned 64 v))
  | .float v => pure (.f v)
  | .double v => pure (.d v)
  | .string v => do
    let str ← jni rt (.NewStringUTF v)
    pure (.l str.toNat)
  | .jobject v => pure (.l v)
  | .javaObj v => pure (.l v.getObjId)
  | .long _ => noInstance "JavaClass::toJvalue<const long> is declared but never defined"

/-- The overloads of `JavaClass::fillJValues`: `jvalues[index] = toJvalue(arg)`, then
the remaining arguments from `index + 1`. -/
def fillJValues (rt : Runtime) (jvalues : List JValue) (index : Nat) :
    List HostValue → JniM (List JValue)
  | [] => pure jvalues
  | arg :: args => do
    let j ← toJvalue rt arg
    fillJValues rt (jvalues.set index j) (index + 1) args

/-- The overloads of `JavaClass::createJValues`: without arguments the non-template
overload returns `nullptr`; otherwise an array of `sizeof...(Args)` entries is filled. -/
def createJValues (rt : Runtime) (args : List HostValue) : JniM (Option (List JValue)) :=
  match args with
  | [] => pure none
  | _ :: _ => do
    let jvalues ← fillJValues rt (List.replicate args.length (JValue.j 0)) 0 args
    pure (some jvalues)

/-- Member `JavaClass::getStaticMethodID(methodName, returnType, args...)`.  The
instantiation needs `signature(returnType, args...)` whether or not the name is cached. -/
def JavaClass.getStaticMethodID (rt : Runtime) (self : JavaClass) (methodName : String)
    (returnType : HostValue) (args : List HostValue) : JniM (Nat × JavaClass) :=
  match signature returnType args with
  | none => noInstance "JavaClass::getSymbol is declared but never defined for a type used"
  | some sig =>
    match self.methodCache.at methodName with
    | some methodId => pure (methodId, self)
    | none => do
      let methodId ← jni rt (.GetStaticMethodID self.classId methodName sig)
      pure (methodId.toNat,
        { self with methodCache := self.methodCache.assign methodName methodId.toNat })

/-- Member `JavaClass::getStaticVoidMethodID(methodName, args...)`. -/
def JavaClass.getStaticVoidMethodID (rt : Runtime) (self : JavaClass) (methodName : String)
    (args : List HostValue) : JniM (Nat × JavaClass) :=
  match voidSignature args with
  | none => noInstance "JavaClass::getSymbol is declared but never defined for a type used"
  | some sig =>
    match self.methodCache.at methodName with
    | some methodId => pure (methodId, self)
    | none => do
      let methodId ← jni rt (.GetStaticMethodID self.classId methodName sig)
      pure (methodId.toNat,
        { self with methodCache := self.methodCache.assign methodName methodId.toNat })

/-- Member `JavaClass::fromJObject(object, returnType)`: the `std::string`
specialisation, and the primary template `ReturnType(returnType.getClassPath(), object, env)`,
which only a `JavaObj` marker satisfies. -/
def JavaClass.fromJObject (rt : Runtime) (object : Nat) : HostValue → JniM HostValue
  | .string _ => do
    let zString ← jniChars rt (.GetStringUTFChars object)
    pure (.string zString)
  | .javaObj returnType => do
    let obj ← JavaObj.withEnv rt returnType.getClassPath object
    pure (.javaObj obj)
  | _ => noInstance "JavaClass::fromJObject: ReturnType has no getClassPath()"

/-- Member `JavaClass::callStaticMethod(methodId, returnType, args)`: the `float` and
`jobject` specialisations, and the primary template for every other return type. -/
def JavaClass.callStaticMethod (rt : Runtime) (self : JavaClass) (methodId : Nat)
    (returnType : HostValue) (args : Option (List JValue)) : JniM HostValue :=
  match returnType with
  | .float _ => do
    let r ← jni rt (.CallStaticMethodA .Float self.classId methodId args)
    pure (.float r.toNat)
  | .jobject _ => do
    let r ← jni rt (.CallStaticMethodA .Object self.classId methodId args)
    pure (.jobject r.toNat)
  | _ => do
    let object ← jni rt (.CallStaticMethodA .Object self.classId methodId args)
    checkExceptions "JavaClass::callStaticMethod CallStaticObjectMethodA"
    JavaClass.fromJObject rt object.toNat returnType

/-- Member `JavaClass::callStaticMethodVoid(methodId, args)`. -/
def JavaClass.callStaticMethodVoid (rt : Runtime) (self : JavaClass) (methodId : Nat)
    (args : Option (List JValue)) : JniM Unit := do
  let _ ← jni rt (.CallStaticMethodA .Void self.classId methodId args)
  checkExceptions "JavaClass::callStaticMethodVoid CallStaticVoidMethodA"

/-- Member `JavaClass::call(name, returnType, args...)`; returns the result and the
handle with its updated cache. -/
def JavaClass.call (rt : Runtime) (self : JavaClass) (name : String)
    (returnType : HostValue) (args : List HostValue) : JniM (HostValue × JavaClass) := do
  let (methodId, self) ← self.getStaticMethodID rt name returnType args
  checkExceptions "JavaClass::call GetStaticMethodId"
  let jvalues ← createJValues rt args
  let result ← self.callStaticMethod rt methodId returnType jvalues
  checkExceptions "JavaClass::call callStaticMethod"
  pure (result, self)

/-- Member `JavaClass::callVoid(jmethodID methodId, args...)`. -/
def JavaClass.callVoidById (rt : Runtime) (self : JavaClass) (methodId : Nat)
    (args : List HostValue) : JniM Unit := do
  checkExceptions "JavaClass::callVoid GetStaticMethodId"
  let jvalues ← createJValues rt args
  self.callStaticMethodVoid rt methodId jvalues
  checkExceptions "JavaClass::call callStaticMethodVoid"

/-- Member `JavaClass::callVoid(std::string name, args...)`, whose body is
`callVoid(getStaticVoidMethodID(name, args...))`: the identifier alone is passed on. -/
def JavaClass.callVoid (rt : Runtime) (self : JavaClass) (name : String)
    (args : List HostValue) : JniM JavaClass := do
  let (methodId, self) ← self.getStaticVoidMethodID rt name args
  self.callVoidById rt methodId []
  pure self

/-- Member `JavaClass::createNew(classPath, args...)`. -/
def JavaClass.createNew (rt : Runtime) (self : JavaClass) (classPath : String)
    (args : List HostValue) : JniM JavaObj :=
  match voidSignature args with
  | none => noInstance "JavaClass::getSymbol is declared but never defined for a type used"
  | some sig => do
    let methodId ← jni rt (.GetMethodID self.classId "<init>" sig)
    checkExceptions "JavaClass::createNew GetMethodId"
    let jvalues ← createJValues rt args
    let objId ← jni rt (.NewObjectA self.classId methodId.toNat jvalues)
    checkExceptions "JavaClass::createNew NewObjectA"
    pure (JavaObj.ofIds classPath objId.toNat self.classId)

/-! ## `JavaObj` operations -/

/-- Private member `JavaObj::getMethodID(methodName, signature)`. -/
def JavaObj.getMethodIDSig (rt : Runtime) (self : JavaObj) (methodName sig : String) :
    JniM (Nat × JavaObj) :=
  match self.methodCache.at methodName with
  | some methodId => pure (methodId, self)
  | none => do
    let methodId ← jni rt (.GetMethodID self.base.classId methodName sig)
    pure (methodId.toNat,
      { self with methodCache := self.methodCache.assign methodName methodId.toNat })

/-- Member template `JavaObj::getMethodID(methodName, returnType, args...)`. -/
def JavaObj.getMethodID (rt : Runtime) (self : JavaObj) (methodName : String)
    (returnType : HostValue) (args : List HostValue) : JniM (Nat × JavaObj) :=
  match signature returnType args with
  | none => noInstance "JavaClass::getSymbol is declared but never defined for a type used"
  | some sig => self.getMethodIDSig rt methodName sig

/-- Member `JavaObj::getVoidMethodID(methodName, args...)`. -/
def JavaObj.getVoidMethodID (rt : Runtime) (self : JavaObj) (methodName : String)
    (args : List HostValue) : JniM (Nat × JavaObj) :=
  match voidSignature args with
  | none => noInstance "JavaClass::getSymbol is declared but never defined for a type used"
  | some sig => self.getMethodIDSig rt methodName sig

/-- Member `JavaObj::callMethod(methodId, returnType, args)`: one specialisation per
return type, and the primary template, which wraps the result of the `jobject`
specialisation in `ReturnType(returnType.getClassPath(), ..., env)`. -/
def JavaObj.callMethod (rt : Runtime) (self : JavaObj) (methodId : Nat)
    (returnType : HostValue) (args : Option (List JValue)) : JniM HostValue :=
  match returnType with
  | .jobject _ => do
    let r ← jni rt (.CallMethodA .Object self.objId methodId args)
    pure (.jobject r.toNat)
  | .bool _ => do
    let r ← jni rt (.CallMethodA .Boolean self.objId methodId args)
    pure (.bool (r != 0))
  | .uint8 _ => do
    let r ← jni rt (.CallMethodA .Byte self.objId methodId args)
    pure (.uint8 (toUnsigned 8 r).toNat)
  | .int8 _ => do
    let r ← jni rt (.CallMethodA .Char self.objId methodId args)
    pure (.int8 (toSigned 8 r))
  | .int16 _ => do
    let r ← jni rt (.CallMethodA .Short self.objId methodId args)
    pure (.int16 (toSigned 16 r))
  | .uint16 _ => do
    let r ← jni rt (.CallMethodA .Int self.objId methodId args)
    pure (.uint16 (toUnsigned 16 r).toNat)
  | .int32 _ => do
    let r ← jni rt (.CallMethodA .Int self.objId methodId args)
    pure (.int32 (toSigned 32 r))
  | .uint32 _ => do
    let r ← jni rt (.CallMethodA .Long self.objId methodId args)
    pure (.uint32 (toUnsigned 32 r).toNat)
  | .int64 _ => do
    let r ← jni rt (.CallMethodA .Long self.objId methodId args)
    pure (.int64 (toSigned 64 r))
  | .float _ => do
    let r ← jni rt (.CallMethodA .Float self.objId methodId args)
    pure (.float r.toNat)
  | .double _ => do
    let r ← jni rt (.CallMethodA .Double self.objId methodId args)
    pure (.double r.toNat)
  | .javaObj returnType => do
    let r ← jni rt (.CallMethodA .Object self.objId methodId args)
    let obj ← JavaObj.withEnv rt returnType.getClassPath r.toNat
    pure (.javaObj obj)
  | _ => noInstance "JavaObj::callMethod: ReturnType has no getClassPath()"

/-- Member `JavaObj::callVoidMethod(methodId, args)`. -/
def JavaObj.callVoidMethod (rt : Runtime) (self : JavaObj) (methodId : Nat)
    (args : Option (List JValue)) : JniM Unit := do
  let _ ← jni rt (.CallMethodA .Void self.objId methodId args)
  pure ()

/-- Member `JavaObj::call(jmethodID methodId, returnType, args...)`. -/
def JavaObj.callById (rt : Runtime) (self : JavaObj) (methodId : Nat)
    (returnType : HostValue) (args : List HostValue) : JniM HostValue := do
  let jvalues ← createJValues rt args
  let result ← self.callMethod rt methodId returnType jvalues
  checkExceptions "JavaObj.call callMethod"
  pure result

/-- Member `JavaObj::call(std::string name, returnType, args...)`; returns the result
and the handle with its updated cache. -/
def JavaObj.call (rt : Runtime) (self : JavaObj) (name : String)
    (returnType : HostValue) (args : List HostValue) : JniM (HostValue × JavaObj) := do
  let (methodId, self) ← self.getMethodID rt name returnType args
  checkExceptions "JavaObj.call GetMethodId"
  let result ← self.callById rt methodId returnType args
  pure (result, self)

/-- Member `JavaObj::callVoid(jmethodID methodId, args...)`. -/
def JavaObj.callVoidById (rt : Runtime) (self : JavaObj) (methodId : Nat)
    (args : List HostValue) : JniM Unit := do
  checkExceptions "JavaObj.callVoid GetMethodId"
  let jvalues ← createJValues rt args
  self.callVoidMethod rt methodId jvalues
  checkExceptions "JavaObj.callVoid callVoidMethod"

/-- Member `JavaObj::callVoid(std::string name, args...)`, whose body is
`callVoid(getVoidMethodID(name, args...), args...)`. -/
def JavaObj.callVoid (rt : Runtime) (self : JavaObj) (name : String)
    (args : List HostValue) : JniM JavaObj := do
  let (methodId, self) ← self.getVoidMethodID rt name args
  self.callVoidById rt methodId args
  pure self

/-! ## Direct buffers (`JavaObj.h` 82-117, 139-178) -/

/-- Element types (`BufferType::value_type`) of host buffers; `other` is any type
besides the fixed-width arithmetic ones, with its `sizeof`. -/
inductive ElemType
  | uint8 | int8 | uint16 | int16 | uint32 | int32 | uint64 | int64 | float | double
  | other (size : Nat)
  deriving DecidableEq, Repr

/-- The `sizeof` of an element type, in bytes. -/
def ElemType.sizeof : ElemType → Nat
  | .uint8 | .int8 => 1
  | .uint16 | .int16 => 2
  | .uint32 | .int32 | .float => 4
  | .uint64 | .int64 | .double => 8
  | .other size => size

/-- A contiguous host container: element type, `data()` address and `size()`.  It
occupies `size * sizeof` bytes of memory, so that product is a valid `size_t`. -/
structure HostBuffer where
  valueType : ElemType
  data : Nat
  size : Nat
  deriving DecidableEq, Repr

/-- Member `JavaObj::getBufferName<DataType>(prolog, punct)` with its specialisations
for `uint16_t`, `uint32_t` and `uint64_t`. -/
def getBufferName (dataType : ElemType) (prolog punct : String) : String :=
  match dataType with
  | .uint16 => prolog ++ "ShortBuffer" ++ punct
  | .uint32 => prolog ++ "IntBuffer" ++ punct
  | .uint64 => prolog ++ "LongBuffer" ++ punct
  | _ => prolog ++ "ByteBuffer" ++ punct

/-- Member `JavaObj::convertBufferTypeHelper<DataType>(buffer)`. -/
def convertBufferTypeHelper (rt : Runtime) (dataType : ElemType) (buffer : Nat) :
    JniM Nat := do
  let clazz ← jni rt (.GetObjectClass buffer)
  let asTypeBuffer ← jni rt (.GetMethodID clazz.toNat (getBufferName dataType "as" "")
    (getBufferName dataType "()Ljava/nio/" ";"))
  checkExceptions "convertBufferTypeHelper GetMethodID"
  let convertedBuffer ← jni rt (.CallObjectMethod buffer asTypeBuffer.toNat)
  checkExceptions "convertBufferTypeHelper CallObjectMethod"
  pure convertedBuffer.toNat

/-- Member `JavaObj::convertBufferType<DataType>(buffer)`: the primary template returns
the buffer; the three specialisations go through the helper. -/
def convertBufferType (rt : Runtime) (dataType : ElemType) (buffer : Nat) : JniM Nat :=
  match dataType with
  | .uint16 => convertBufferTypeHelper rt .uint16 buffer
  | .uint32 => convertBufferTypeHelper rt .uint32 buffer
  | .uint64 => convertBufferTypeHelper rt .uint64 buffer
  | _ => pure buffer

/-- Member `JavaObj::createDirectBuffer(buffer)`. -/
def JavaObj.createDirectBuffer (rt : Runtime) (buffer : HostBuffer) : JniM JavaObj := do
  let raw ← jni rt (.NewDirectByteBuffer buffer.data (buffer.size * buffer.valueType.sizeof))
  let javaByteBuffer ← JavaObj.withEnv rt "java.nio.ByteBuffer" raw.toNat
  checkExceptions "linkBuffer NewDirectByteBuffer"
  let byteOrder ← JavaClass.withEnv rt "java.nio.ByteOrder"
  let (byteNativeOrder, _) ←
    byteOrder.call rt "nativeOrder" (.javaObj (JavaObj.ofClassPath "java.nio.ByteOrder")) []
  let (_, javaByteBuffer) ←
    javaByteBuffer.call rt "order" (.javaObj (JavaObj.ofClassPath "java.nio.ByteBuffer"))
      [byteNativeOrder]
  let converted ← convertBufferType rt buffer.valueType javaByteBuffer.getObjId
  JavaObj.withEnv rt "java.nio.Buffer" converted

/-- Member `JavaObj::linkBuffer(fieldName, buffer)`. -/
def JavaObj.linkBuffer (rt : Runtime) (self : JavaObj) (fieldName : String)
    (buffer : HostBuffer) : JniM Unit := do
  let bufferId ← jni rt (.GetFieldID self.base.classId fieldName
    (getBufferName buffer.valueType "Ljava/nio/" ";"))
  checkExceptions "linkBuffer GetFieldId"
  let javaBuffer ← JavaObj.createDirectBuffer rt buffer
  let _ ← jni rt (.SetObjectField self.objId bufferId.toNat javaBuffer.getObjId)
  checkExceptions "linkBuffer SetObjectField"

/-! ## The managed runtime object (`JVM.h`) and the registry (`JNI++.h`) -/

/-- Data members of `class JVM` (`env`, `jvm`, `classesCache`), and `addr`, the
address of the object, which is what a `JVM&` denotes. -/
structure JVM where
  addr : Nat
  env : Nat
  jvm : Nat
  classesCache : StdMap JavaClass
  deriving DecidableEq, Repr

/-- Member `JVM::CheckPointer(cause, pointer)`. -/
def JVM.CheckPointer (cause : String) (pointer : Nat) : JniM Nat :=
  if pointer = 0 then do
    exceptionClear
    throwRuntimeError (cause ++ " not found")
  else pure pointer

/-- Member `JVM::getClass(classPath)`; returns the handle and the runtime object with
its updated cache. -/
def JVM.getClass (rt : Runtime) (self : JVM) (classPath : String) :
    JniM (JavaClass × JVM) :=
  match self.classesCache.at classPath with
  | some cached => pure (cached, self)
  | none => do
    let cachedClass ← JavaClass.withEnv rt classPath
    pure (cachedClass,
      { self with classesCache := self.classesCache.assign classPath cachedClass })

/-- What `JNI_CreateJavaVM` hands back: the status and the two handles it stores. -/
structure VMCreation where
  status : Int
  jvm : Nat
  env : Nat
  deriving DecidableEq, Repr

/-- The host's invocation interface: the outcome of `JNI_CreateJavaVM` for the option
lists of the earlier invocations and the options now passed. -/
structure Host where
  JNI_CreateJavaVM : List (List String) → List String → VMCreation

/-- State of the process outside the registry: the option lists of the
`JNI_CreateJavaVM` invocations so far, and the next address `make_unique` hands out. -/
structure Process where
  creations : List (List String)
  nextAddr : Nat
  deriving DecidableEq, Repr

/-- The status constant `JNI_OK`. -/
def JNI_OK : Int := 0

/-- The option strings `JVM::JVM` builds from `libPath` and `verbose`. -/
def JVM.options (libPath : String) (verbose : Bool) : List String :=
  ["-Djava.class.path=" ++ libPath, "-XX:+CreateMinidumpOnCrash", "-Djava.compiler=NONE",
    "-Xcheck:jni"] ++ (if verbose then ["-verbose:jni"] else [])

/-- Constructor `JVM::JVM(libPath, verbose)` of the object at `addr`: `Except.error` is
the thrown `std::runtime_error`. -/
def JVM.create (host : Host) (libPath : String) (verbose : Bool) (addr : Nat)
    (p : Process) : Except String JVM × Process :=
  let options := JVM.options libPath verbose
  let r := host.JNI_CreateJavaVM p.creations options
  let p1 : Process := { p with creations := p.creations ++ [options] }
  if JNI_OK ≠ r.status then (.error "JVM Creation failed", p1)
  else (.ok { addr := addr, env := r.env, jvm := r.jvm, classesCache := [] }, p1)

/-- Data member of the singleton `class JNI`. -/
structure JNI where
  jvms : StdMap JVM
  deriving DecidableEq, Repr

/-- The registry as `getInstance()` first yields it. -/
def JNI.getInstance : JNI := { jvms := [] }

/-- The process before any runtime was requested. -/
def Process.init : Process := { creations := [], nextAddr := 1 }

/-- Member `JNI::getJVM(classPath, verbose)`: the returned runtime (or the exception
that leaves the function), the registry and the process afterwards. -/
def JNI.getJVM (host : Host) (self : JNI) (classPath : String) (verbose : Bool)
    (p : Process) : Except String JVM × JNI × Process :=
  match self.jvms.at classPath with
  | some jvm => (.ok jvm, self, p)
  | none =>
    match JVM.create host classPath verbose p.nextAddr { p with nextAddr := p.nextAddr + 1 } with
    | (.error what, p1) => (.error what, self, p1)
    | (.ok jvm, p1) => (.ok jvm, { self with jvms := self.jvms.assign classPath jvm }, p1)

/-- A sequence of `getJVM` requests, run in order; yields the outcomes in request order. -/
def JNI.requests (host : Host) :
    List (String × Bool) → JNI → Process → List (Except String JVM) × JNI × Process
  | [], self, p => ([], self, p)
  | (classPath, verbose) :: rest, self, p =>
    match JNI.getJVM host self classPath verbose p with
    | (r, self1, p1) =>
      match JNI.requests host rest self1 p1 with
      | (rs, self2, p2) => (r :: rs, self2, p2)

/-! ## Definitions used in the statements: example runtimes, request runs, trace predicates -/

/-- The keys of a map, in storage order. -/
def StdMap.keys {V : Type} (m : StdMap V) : List String := m.map Prod.fst

/-- Whether a request returned a runtime. -/
def succeeded : Except String JVM → Bool
  | .ok _ => true
  | .error _ => false

/-- Invariant of the registry: every stored runtime lies below the allocation mark,
distinct keys hold runtimes at distinct addresses, no key is stored twice, and there
were as many VM creations as there are entries. -/
def RegInv (self : JNI) (p : Process) : Prop :=
  (∀ k j, self.jvms.at k = some j → j.addr < p.nextAddr) ∧
  (∀ k1 k2 j1 j2, self.jvms.at k1 = some j1 → self.jvms.at k2 = some j2 →
    j1.addr = j2.addr → k1 = k2) ∧
  self.jvms.keys.Nodup ∧
  p.creations.length = self.jvms.length

/-- A host whose VM creation always succeeds. -/
def Host.alwaysOk : Host :=
  { JNI_CreateJavaVM := fun log _ => { status := 0, jvm := log.length + 1, env := log.length + 1 } }

/-- A host whose first VM creation fails and whose later ones succeed. -/
def Host.failsOnce : Host :=
  { JNI_CreateJavaVM := fun log _ =>
      { status := if log.length = 0 then -1 else 0, jvm := log.length, env := log.length } }

/-- A runtime that knows no class: every lookup returns null, and `FindClass` leaves
an exception pending. -/
def Runtime.knowsNothing : Runtime :=
  { result := fun _ _ => 0
    chars := fun _ _ => ""
    raises := fun _ c => match c with
      | .FindClass _ => true
      | _ => false }

/-- A runtime object with an empty class cache. -/
def JVM.fresh : JVM := { addr := 1, env := 1, jvm := 1, classesCache := [] }

/-- A resolution request: the method name, the return marker (`none` for the
void variants) and the arguments. -/
structure Resolution where
  name : String
  returnType : Option HostValue
  args : List HostValue
  deriving DecidableEq, Repr

/-- The signature computed for a request. -/
def Resolution.signature (q : Resolution) : Option String :=
  match q.returnType with
  | some r => JniPP.signature r q.args
  | none => voidSignature q.args

/-- Static resolution on a class handle: `getStaticMethodID` or `getStaticVoidMethodID`. -/
def JavaClass.resolve (rt : Runtime) (self : JavaClass) (q : Resolution) :
    JniM (Nat × JavaClass) :=
  match q.returnType with
  | some r => self.getStaticMethodID rt q.name r q.args
  | none => self.getStaticVoidMethodID rt q.name q.args

/-- A run of static resolutions on one class handle. -/
def JavaClass.resolveAll (rt : Runtime) : List Resolution → JavaClass → JniM JavaClass
  | [], self => pure self
  | q :: qs, self => do
    let (_, self) ← self.resolve rt q
    JavaClass.resolveAll rt qs self

/-- Instance resolution on an instance handle: `getMethodID` or `getVoidMethodID`. -/
def JavaObj.resolve (rt : Runtime) (self : JavaObj) (q : Resolution) :
    JniM (Nat × JavaObj) :=
  match q.returnType with
  | some r => self.getMethodID rt q.name r q.args
  | none => self.getVoidMethodID rt q.name q.args

/-- A run of instance resolutions on one instance handle. -/
def JavaObj.resolveAll (rt : Runtime) : List Resolution → JavaObj → JniM JavaObj
  | [], self => pure self
  | q :: qs, self => do
    let (_, self) ← self.resolve rt q
    JavaObj.resolveAll rt qs self

/-- A runtime whose method identifiers depend on the signature asked for: the
identifier is `100` plus the length of the signature. -/
def Runtime.bySignature : Runtime :=
  { result := fun _ c => match c with
      | .GetStaticMethodID _ _ sig => 100 + sig.length
      | .GetMethodID _ _ sig => 100 + sig.length
      | _ => 0
    chars := fun _ _ => ""
    raises := fun _ _ => false }

/-- A resolved class handle for `java.lang.Math` with an empty cache. -/
def JavaClass.math : JavaClass :=
  { methodCache := [], classPath := "java/lang/Math", classId := 7 }

/-- A runtime in which the static method under identifier 22 is integer maximum:
the `Int` static-call primitive returns the larger of two `jint` arguments. -/
def Runtime.javaMath : Runtime :=
  { result := fun _ c => match c with
      | .FindClass _ => 11
      | .GetStaticMethodID _ _ _ => 22
      | .CallStaticMethodA .Int _ 22 (some [.i a, .i b]) => max a b
      | _ => 0
    chars := fun _ _ => ""
    raises := fun _ _ => false }

/-- The name of the `JNIEnv` function a call goes to. -/
def JniCall.function : JniCall → String
  | .FindClass _ => "FindClass"
  | .GetStaticMethodID _ _ _ => "GetStaticMethodID"
  | .GetMethodID _ _ _ => "GetMethodID"
  | .GetFieldID _ _ _ => "GetFieldID"
  | .NewObjectA _ _ _ => "NewObjectA"
  | .CallStaticMethodA kind _ _ _ =>
    match kind with
    | .Object => "CallStaticObjectMethodA"
    | .Boolean => "CallStaticBooleanMethodA"
    | .Byte => "CallStaticByteMethodA"
    | .Char => "CallStaticCharMethodA"
    | .Short => "CallStaticShortMethodA"
    | .Int => "CallStaticIntMethodA"
    | .Long => "CallStaticLongMethodA"
    | .Float => "CallStaticFloatMethodA"
    | .Double => "CallStaticDoubleMethodA"
    | .Void => "CallStaticVoidMethodA"
  | .CallMethodA kind _ _ _ =>
    match kind with
    | .Object => "CallObjectMethodA"
    | .Boolean => "CallBooleanMethodA"
    | .Byte => "CallByteMethodA"
    | .Char => "CallCharMethodA"
    | .Short => "CallShortMethodA"
    | .Int => "CallIntMethodA"
    | .Long => "CallLongMethodA"
    | .Float => "CallFloatMethodA"
    | .Double => "CallDoubleMethodA"
    | .Void => "CallVoidMethodA"
  | .CallObjectMethod _ _ => "CallObjectMethod"
  | .NewStringUTF _ => "NewStringUTF"
  | .GetStringUTFChars _ => "GetStringUTFChars"
  | .NewDirectByteBuffer _ _ => "NewDirectByteBuffer"
  | .GetObjectClass _ => "GetObjectClass"
  | .SetObjectField _ _ _ => "SetObjectField"

/-- An event without its arguments: the function called, or `check`. -/
def Event.label : Event → String
  | .call c => c.function
  | .check _ => "check"

/-- The events after which a run ended (none when there is no program). -/
def Result.trace {α : Type} : Result α → List Event
  | .ok _ w => w.trace
  | .thrown _ w => w.trace
  | .illFormed _ => []

/-- A runtime that answers every call with a fresh non-null number (one more than the
number of events so far) and never raises. -/
def Runtime.counting : Runtime :=
  { result := fun trace _ => trace.length + 1
    chars := fun _ _ => "text"
    raises := fun _ _ => false }

/-- The labels of the events of `createDirectBuffer` between the creation of the byte
buffer and the conversion: wrapping it, fetching the native byte order (a static call)
and setting it (an instance call). -/
def directBufferSetup : List String :=
  ["FindClass", "check", "check",
   "FindClass", "check",
   "GetStaticMethodID", "check", "CallStaticObjectMethodA", "check", "FindClass", "check", "check",
   "GetMethodID", "check", "CallObjectMethodA", "FindClass", "check", "check"]

/-- Whether every call in a trace is immediately followed by an exception check. -/
def everyCallChecked : List Event → Bool
  | [] => true
  | .check _ :: rest => everyCallChecked rest
  | .call _ :: .check _ :: rest => everyCallChecked rest
  | .call _ :: _ => false

/-- A resolved class handle for `java.lang.Float` with an empty cache. -/
def JavaClass.javaFloat : JavaClass :=
  { methodCache := [], classPath := "java/lang/Float", classId := 7 }

/-- A resolved class handle for `java.lang.System` with an empty cache. -/
def JavaClass.system : JavaClass :=
  { methodCache := [], classPath := "java/lang/System", classId := 7 }

/-- An instance handle (object reference 9 of class reference 7) with empty caches. -/
def JavaObj.sample : JavaObj :=
  { base := { methodCache := [], classPath := "java/util/ArrayList", classId := 7 },
    objId := 9, methodCache := [] }

/-- The marshalled array as the claim words it: one entry per call argument, in
argument order, entry `i` being `toJvalue` of argument `i`. -/
def claimedJValues (rt : Runtime) : List HostValue → JniM (List JValue)
  | [] => pure []
  | arg :: args => do
    let j ← toJvalue rt arg
    let js ← claimedJValues rt args
    pure (j :: js)

/-- The runtime type a one-character type code denotes, named by the call primitive
that returns it: `Z` boolean, `B` byte, `C` char, `S` short, `I` int, `J` long,
`F` float, `D` double. -/
def codeKind (code : String) : Option CallKind :=
  if code = "Z" then some .Boolean
  else if code = "B" then some .Byte
  else if code = "C" then some .Char
  else if code = "S" then some .Short
  else if code = "I" then some .Int
  else if code = "J" then some .Long
  else if code = "F" then some .Float
  else if code = "D" then some .Double
  else none

/-! ## Signatures and type codes: proofs -/

theorem join_cons (s : String) (ss : List String) : String.join (s :: ss) = s ++ String.join ss := by
  apply String.ext
  simp [String.join_eq]

theorem signatureStream_eq (args : List HostValue) (syms : List String)
    (ha : List.Forall₂ (fun a s => getSymbol a = some s) args syms) (os : String) :
    signatureStream os args = some (os ++ String.join syms ++ ")") := by
  induction ha generalizing os with
  | nil => simp [signatureStream, String.join]
  | cons h _ ih =>
    simp only [signatureStream, h, ih, join_cons, String.append_assoc]

/-- C1: for a return marker `r` with code `rs` and arguments whose codes are `syms`
(in argument order), `signature(r, args...)` is `"(" ++ syms ++ ")" ++ rs`, and
`voidSignature(args...)` is `"(" ++ syms ++ ")V"`; without arguments it is `"()V"`. -/
theorem signature_layout :
    (∀ (r : HostValue) (args : List HostValue) (rs : String) (syms : List String),
      getSymbol r = some rs →
      List.Forall₂ (fun a s => getSymbol a = some s) args syms →
      signature r args = some ("(" ++ String.join syms ++ ")" ++ rs)) ∧
    (∀ (args : List HostValue) (syms : List String),
      List.Forall₂ (fun a s => getSymbol a = some s) args syms →
      voidSignature args = some ("(" ++ String.join syms ++ ")" ++ "V")) ∧
    voidSignature [] = some "()V" := by
  refine ⟨?_, ?_, ?_⟩
  · intro r args rs syms hr ha
    simp only [signature, signatureStream_eq args syms ha, hr]
  · intro args syms ha
    simp only [voidSignature, signatureStream_eq args syms ha, getSymbolVoid]
  · rfl

/-- C1 at a concrete call: an `int32_t` marker with an `int32_t`, a string and a handle. -/
theorem signature_layout_witness :
    signature (.int32 0) [.int32 3, .string "a", .javaObj (JavaObj.ofClassPath "java.nio.Buffer")]
      = some ("(" ++ String.join ["I", "Ljava/lang/String;", "Ljava/nio/Buffer;"] ++ ")" ++ "I") ∧
    voidSignature [.double 0, .bool true] = some ("(" ++ String.join ["D", "Z"] ++ ")" ++ "V") :=
  ⟨signature_layout.1 _ _ _ _ rfl
      (.cons rfl (.cons rfl (.cons (by decide) .nil))),
    signature_layout.2.1 _ _ (.cons rfl (.cons rfl .nil))⟩

/-- C2: the code of a value of any type but `JavaObj` is fixed by its C++ type alone;
`int32_t` has code `I`, `std::string` has `Ljava/lang/String;`, every arithmetic type a
one-character code, and a handle `h` has `"L" ++ h.getClassPath() ++ ";"`, so a handle
built from `java.nio.ByteBuffer` has `Ljava/nio/ByteBuffer;`. -/
theorem getSymbol_by_type :
    (∀ v w : HostValue, v.type = w.type → v.type ≠ HostType.javaObj →
      getSymbol v = getSymbol w) ∧
    (∀ v : Int, getSymbol (.int32 v) = some "I") ∧
    (∀ v : String, getSymbol (.string v) = some "Ljava/lang/String;") ∧
    (∀ v : HostValue, v.type.isPrimitive = true →
      ∃ c : Char, getSymbol v = some (String.singleton c)) ∧
    (∀ h : JavaObj, getSymbol (.javaObj h) = some ("L" ++ h.getClassPath ++ ";")) ∧
    getSymbol (.javaObj (JavaObj.ofClassPath "java.nio.ByteBuffer"))
      = some "Ljava/nio/ByteBuffer;" := by
  refine ⟨?_, fun _ => rfl, fun _ => rfl, ?_, fun _ => rfl, by decide⟩
  · intro v w h hv
    cases v <;> cases w <;> simp_all [HostValue.type, getSymbol]
  · intro v hv
    cases v <;> simp_all [HostValue.type, HostType.isPrimitive, getSymbol]
    · exact ⟨'Z', rfl⟩
    · exact ⟨'S', rfl⟩
    · exact ⟨'C', rfl⟩
    · exact ⟨'S', rfl⟩
    · exact ⟨'I', rfl⟩
    · exact ⟨'I', rfl⟩
    · exact ⟨'I', rfl⟩
    · exact ⟨'J', rfl⟩
    · exact ⟨'J', rfl⟩
    · exact ⟨'F', rfl⟩
    · exact ⟨'D', rfl⟩

/-- C2 at concrete values: two `uint32_t` values share the code `J`, a `double` has a
one-character code. -/
theorem getSymbol_by_type_witness :
    getSymbol (.uint32 7) = getSymbol (.uint32 4000000000) ∧
    ∃ c : Char, getSymbol (.double 0) = some (String.singleton c) :=
  ⟨getSymbol_by_type.1 _ _ rfl (by decide), getSymbol_by_type.2.2.2.1 _ rfl⟩

/-! ## Running wrapper code: unfolding lemmas -/

theorem bind_run {α β : Type} (x : JniM α) (f : α → JniM β) (w : World) :
    (x >>= f) w = JniM.bind x f w := rfl

theorem pure_run {α : Type} (a : α) (w : World) : (pure a : JniM α) w = Result.ok a w := rfl

theorem withEnv_run (rt : Runtime) (classPath : String) (w : World) :
    JavaClass.withEnv rt classPath w =
      Result.ok
        { methodCache := [], classPath := replace classPath '.' '/',
          classId := (rt.result w.trace (.FindClass (replace classPath '.' '/'))).toNat }
        { trace := w.trace ++ [Event.call (.FindClass (replace classPath '.' '/')),
            Event.check "JavaClass::JavaClass FindClass"],
          pending := false } := by
  simp [JavaClass.withEnv, bind_run, JniM.bind, jni, checkExceptions, pure_run,
    JavaClass.ofClassPath]

theorem objWithEnv_run (rt : Runtime) (classPath : String) (objId : Nat) (w : World) :
    JavaObj.withEnv rt classPath objId w =
      Result.ok
        { base :=
            { methodCache := [], classPath := replace classPath '.' '/',
              classId := (rt.result w.trace (.FindClass (replace classPath '.' '/'))).toNat },
          objId := objId, methodCache := [] }
        { trace := w.trace ++ [Event.call (.FindClass (replace classPath '.' '/')),
            Event.check "JavaClass::JavaClass FindClass"],
          pending := false } := by
  simp [JavaObj.withEnv, bind_run, JniM.bind, withEnv_run, pure_run]

/-! ## Classpath normalisation -/

theorem replace_length (s : String) (a b : Char) : (replace s a b).length = s.length := by
  show (s.data.map _).length = s.data.length
  exact List.length_map _ _

theorem replace_idem (s : String) : replace (replace s '.' '/') '.' '/' = replace s '.' '/' := by
  apply String.ext
  simp only [replace, List.map_map]
  apply List.map_congr_left
  intro c _
  by_cases h : c = '.'
  · simp [h]
  · simp [h]

/-- C3: a handle built from `p` stores `p` with every dot replaced by a slash: same
length, no dot left, the characters other than dots unchanged, and a normalised
classpath is left as it is; the constructors taking the environment store the same
string, pass it to `FindClass`, and it is the classpath inside the handle's code. -/
theorem classPath_normalised (p : String) :
    (JavaClass.ofClassPath p).classPath = replace p '.' '/' ∧
    (JavaObj.ofClassPath p).getClassPath = replace p '.' '/' ∧
    (replace p '.' '/').length = p.length ∧
    '.' ∉ (replace p '.' '/').data ∧
    (∀ (i : Nat) (c : Char), p.data[i]? = some c → c ≠ '.' →
      (replace p '.' '/').data[i]? = some c) ∧
    (∀ (i : Nat), p.data[i]? = some '.' → (replace p '.' '/').data[i]? = some '/') ∧
    (JavaClass.ofClassPath (replace p '.' '/')).classPath = replace p '.' '/' ∧
    (∀ (rt : Runtime) (w : World), ∃ (h : JavaClass) (w1 : World),
      JavaClass.withEnv rt p w = Result.ok h w1 ∧ h.classPath = replace p '.' '/' ∧
      w1.trace = w.trace ++ [Event.call (.FindClass (replace p '.' '/')),
        Event.check "JavaClass::JavaClass FindClass"]) ∧
    (∀ (rt : Runtime) (objId : Nat) (w : World), ∃ (h : JavaObj) (w1 : World),
      JavaObj.withEnv rt p objId w = Result.ok h w1 ∧
      h.getClassPath = replace p '.' '/' ∧
      w1.trace = w.trace ++ [Event.call (.FindClass (replace p '.' '/')),
        Event.check "JavaClass::JavaClass FindClass"]) ∧
    getSymbol (.javaObj (JavaObj.ofClassPath p)) = some ("L" ++ replace p '.' '/' ++ ";") := by
  refine ⟨rfl, rfl, replace_length p _ _, ?_, ?_, ?_, replace_idem p, ?_, ?_, rfl⟩
  · simp only [replace, List.mem_map, not_exists, not_and]
    intro c _
    by_cases h : c = '.'
    · simp [h]
    · simp [h]
  · intro i c hc hne
    simp [replace, List.getElem?_map, hc, hne]
  · intro i hc
    simp [replace, List.getElem?_map, hc]
  · intro rt w
    exact ⟨_, _, withEnv_run rt p w, rfl, rfl⟩
  · intro rt objId w
    exact ⟨_, _, objWithEnv_run rt p objId w, rfl, rfl⟩

/-- C3 at `java.nio.ByteBuffer`: the stored classpath is `java/nio/ByteBuffer`. -/
theorem classPath_normalised_witness :
    (JavaClass.ofClassPath "java.nio.ByteBuffer").classPath = "java/nio/ByteBuffer" ∧
    (replace "java.nio.ByteBuffer" '.' '/').data[4]? = some '/' ∧
    (replace "java.nio.ByteBuffer" '.' '/').data[5]? = some 'n' :=
  ⟨by decide, (classPath_normalised "java.nio.ByteBuffer").2.2.2.2.2.1 4 (by decide),
    (classPath_normalised "java.nio.ByteBuffer").2.2.2.2.1 5 'n' (by decide) (by decide)⟩

/-! ## The registry `JNI::getJVM` -/

theorem at_assign_self {V : Type} (m : StdMap V) (k : String) (v : V) :
    (m.assign k v).at k = some v := by
  induction m with
  | nil => simp [StdMap.assign, StdMap.at]
  | cons e rest ih =>
    obtain ⟨k1, v1⟩ := e
    by_cases h : k1 = k
    · simp [StdMap.assign, StdMap.at, h]
    · simp [StdMap.assign, StdMap.at, h, ih]

theorem at_assign_ne {V : Type} (m : StdMap V) (k k2 : String) (v : V) (hne : k2 ≠ k) :
    (m.assign k v).at k2 = m.at k2 := by
  induction m with
  | nil =>
    have : ¬ k = k2 := fun h => hne h.symm
    simp [StdMap.assign, StdMap.at, this]
  | cons e rest ih =>
    obtain ⟨k1, v1⟩ := e
    by_cases h : k1 = k
    · have : ¬ k = k2 := fun h => hne h.symm
      simp [StdMap.assign, StdMap.at, h, this]
    · by_cases h2 : k1 = k2
      · subst h2
        simp [StdMap.assign, StdMap.at, h]
      · simp [StdMap.assign, StdMap.at, h, h2, ih]

theorem at_none_iff {V : Type} (m : StdMap V) (k : String) :
    m.at k = none ↔ k ∉ m.keys := by
  induction m with
  | nil => simp [StdMap.at, StdMap.keys]
  | cons e rest ih =>
    obtain ⟨k1, v1⟩ := e
    by_cases h : k1 = k
    · simp [StdMap.at, StdMap.keys, h]
    · have h2 : ¬ k = k1 := fun e => h e.symm
      simp only [StdMap.at, h, if_false, ih]
      simp [StdMap.keys, h2]

theorem keys_assign_of_none {V : Type} (m : StdMap V) (k : String) (v : V)
    (h : m.at k = none) : (m.assign k v).keys = m.keys ++ [k] := by
  induction m with
  | nil => simp [StdMap.assign, StdMap.keys]
  | cons e rest ih =>
    obtain ⟨k1, v1⟩ := e
    by_cases h1 : k1 = k
    · simp [StdMap.at, h1] at h
    · simp only [StdMap.at, h1, if_false] at h
      have := ih h
      simp only [StdMap.keys] at this
      simp [StdMap.assign, StdMap.keys, h1, this]

theorem getJVM_hit (host : Host) (self : JNI) (c : String) (v : Bool) (p : Process) (j : JVM)
    (h : self.jvms.at c = some j) : JNI.getJVM host self c v p = (.ok j, self, p) := by
  simp [JNI.getJVM, h]

theorem getJVM_miss (host : Host) (self : JNI) (c : String) (v : Bool) (p : Process)
    (h : self.jvms.at c = none) :
    JNI.getJVM host self c v p =
      if (host.JNI_CreateJavaVM p.creations (JVM.options c v)).status = 0 then
        (.ok { addr := p.nextAddr,
               env := (host.JNI_CreateJavaVM p.creations (JVM.options c v)).env,
               jvm := (host.JNI_CreateJavaVM p.creations (JVM.options c v)).jvm,
               classesCache := [] },
         { jvms := self.jvms.assign c
             { addr := p.nextAddr,
               env := (host.JNI_CreateJavaVM p.creations (JVM.options c v)).env,
               jvm := (host.JNI_CreateJavaVM p.creations (JVM.options c v)).jvm,
               classesCache := [] } },
         { creations := p.creations ++ [JVM.options c v], nextAddr := p.nextAddr + 1 })
      else
        (.error "JVM Creation failed", self,
         { creations := p.creations ++ [JVM.options c v], nextAddr := p.nextAddr + 1 }) := by
  by_cases hs : (host.JNI_CreateJavaVM p.creations (JVM.options c v)).status = 0
  · simp [JNI.getJVM, h, JVM.create, JNI_OK, hs]
  · have hs2 : ¬ 0 = (host.JNI_CreateJavaVM p.creations (JVM.options c v)).status :=
      fun e => hs e.symm
    simp [JNI.getJVM, h, JVM.create, JNI_OK, hs, hs2]

theorem regInv_init : RegInv JNI.getInstance Process.init := by
  refine ⟨?_, ?_, ?_, rfl⟩
  · intro k j h
    simp [JNI.getInstance, StdMap.at] at h
  · intro k1 k2 j1 j2 h
    simp [JNI.getInstance, StdMap.at] at h
  · simp [JNI.getInstance, StdMap.keys]

theorem getJVM_step (host : Host) (self : JNI) (c : String) (v : Bool) (p : Process)
    (hinv : RegInv self p) (hok : succeeded (JNI.getJVM host self c v p).1 = true) :
    RegInv (JNI.getJVM host self c v p).2.1 (JNI.getJVM host self c v p).2.2 ∧
    (∃ j, (JNI.getJVM host self c v p).1 = .ok j ∧
      (JNI.getJVM host self c v p).2.1.jvms.at c = some j) ∧
    (∀ k j, self.jvms.at k = some j → (JNI.getJVM host self c v p).2.1.jvms.at k = some j) ∧
    (∀ x, x ∈ (JNI.getJVM host self c v p).2.1.jvms.keys ↔ x ∈ self.jvms.keys ∨ x = c) := by
  obtain ⟨h1, h2, h3, h4⟩ := hinv
  cases hat : self.jvms.at c with
  | some j =>
    rw [getJVM_hit host self c v p j hat]
    refine ⟨⟨h1, h2, h3, h4⟩, ⟨j, rfl, hat⟩, fun k j hk => hk, ?_⟩
    intro x
    constructor
    · exact fun hx => Or.inl hx
    · rintro (hx | hx)
      · exact hx
      · subst hx
        by_contra hn
        rw [← at_none_iff, hat] at hn
        cases hn
  | none =>
    rw [getJVM_miss host self c v p hat] at hok ⊢
    by_cases hs : (host.JNI_CreateJavaVM p.creations (JVM.options c v)).status = 0
    · simp only [hs, if_true]
      have hkeys := keys_assign_of_none self.jvms c
        { addr := p.nextAddr,
          env := (host.JNI_CreateJavaVM p.creations (JVM.options c v)).env,
          jvm := (host.JNI_CreateJavaVM p.creations (JVM.options c v)).jvm,
          classesCache := [] } hat
      refine ⟨⟨?_, ?_, ?_, ?_⟩, ⟨_, rfl, at_assign_self _ _ _⟩, ?_, ?_⟩
      · intro k j hk
        by_cases hkc : k = c
        · subst hkc
          rw [at_assign_self] at hk
          cases hk
          exact Nat.lt_succ_self _
        · rw [at_assign_ne _ _ _ _ hkc] at hk
          exact Nat.lt_succ_of_lt (h1 k j hk)
      · intro k1 k2 j1 j2 hk1 hk2 hadd
        by_cases e1 : k1 = c
        · by_cases e2 : k2 = c
          · rw [e1, e2]
          · subst e1
            rw [at_assign_self] at hk1
            rw [at_assign_ne _ _ _ _ e2] at hk2
            cases hk1
            have := h1 k2 j2 hk2
            simp only at hadd
            omega
        · by_cases e2 : k2 = c
          · subst e2
            rw [at_assign_self] at hk2
            rw [at_assign_ne _ _ _ _ e1] at hk1
            cases hk2
            have := h1 k1 j1 hk1
            simp only at hadd
            omega
          · rw [at_assign_ne _ _ _ _ e1] at hk1
            rw [at_assign_ne _ _ _ _ e2] at hk2
            exact h2 k1 k2 j1 j2 hk1 hk2 hadd
      · rw [hkeys]
        refine List.Nodup.append h3 (List.nodup_singleton c) ?_
        intro x hx hx2
        rw [List.mem_singleton] at hx2
        subst hx2
        exact (at_none_iff _ _).1 hat hx
      · have hlen : (self.jvms.assign c
            { addr := p.nextAddr,
              env := (host.JNI_CreateJavaVM p.creations (JVM.options c v)).env,
              jvm := (host.JNI_CreateJavaVM p.creations (JVM.options c v)).jvm,
              classesCache := [] }).length = self.jvms.length + 1 := by
          have := congrArg List.length hkeys
          simpa [StdMap.keys] using this
        simp [hlen, h4]
      · intro k j hk
        have hkc : k ≠ c := by
          rintro rfl
          rw [hat] at hk
          cases hk
        rw [at_assign_ne _ _ _ _ hkc]
        exact hk
      · intro x
        rw [hkeys]
        simp
    · simp [hs, succeeded] at hok

theorem requests_spec (host : Host) (rs : List (String × Bool)) :
    ∀ (self : JNI) (p : Process), RegInv self p →
    (∀ r ∈ (JNI.requests host rs self p).1, succeeded r = true) →
    RegInv (JNI.requests host rs self p).2.1 (JNI.requests host rs self p).2.2 ∧
    (∀ k j, self.jvms.at k = some j →
      (JNI.requests host rs self p).2.1.jvms.at k = some j) ∧
    (∀ (i : Nat) (a : String × Bool) (x : JVM), rs[i]? = some a →
      (JNI.requests host rs self p).1[i]? = some (.ok x) →
      (JNI.requests host rs self p).2.1.jvms.at a.1 = some x) ∧
    (∀ x, x ∈ (JNI.requests host rs self p).2.1.jvms.keys ↔
      x ∈ self.jvms.keys ∨ x ∈ rs.map Prod.fst) := by
  induction rs with
  | nil =>
    intro self p hinv _
    refine ⟨hinv, fun k j h => h, ?_, ?_⟩
    · intro i a x h
      simp at h
    · intro x
      simp [JNI.requests]
  | cons r rest ih =>
    obtain ⟨c, v⟩ := r
    intro self p hinv hok
    have hunf : JNI.requests host ((c, v) :: rest) self p =
        ((JNI.getJVM host self c v p).1 ::
            (JNI.requests host rest (JNI.getJVM host self c v p).2.1
              (JNI.getJVM host self c v p).2.2).1,
          (JNI.requests host rest (JNI.getJVM host self c v p).2.1
              (JNI.getJVM host self c v p).2.2).2.1,
          (JNI.requests host rest (JNI.getJVM host self c v p).2.1
              (JNI.getJVM host self c v p).2.2).2.2) := rfl
    rw [hunf] at hok ⊢
    have hok1 : succeeded (JNI.getJVM host self c v p).1 = true :=
      hok _ (List.mem_cons_self _ _)
    obtain ⟨s1, ⟨j, hj, hjc⟩, s3, s4⟩ := getJVM_step host self c v p hinv hok1
    obtain ⟨t1, t2, t3, t4⟩ := ih _ _ s1 (fun r hr => hok r (List.mem_cons_of_mem _ hr))
    refine ⟨t1, fun k j hk => t2 k j (s3 k j hk), ?_, ?_⟩
    · intro i a x ha hx
      cases i with
      | zero =>
        simp only [List.getElem?_cons_zero, Option.some.injEq] at ha hx
        subst ha
        rw [hj] at hx
        cases hx
        exact t2 _ _ hjc
      | succ n =>
        simp only [List.getElem?_cons_succ] at ha hx
        exact t3 n a x ha hx
    · intro x
      rw [t4 x, s4 x]
      simp only [List.map_cons, List.mem_cons]
      tauto

/-- C4: a request that returned a runtime, repeated for the same classpath, returns the
same runtime and leaves registry and process (hence the creation log) unchanged; no
request removes or changes an entry; and in any run of successful requests from the
empty registry, two requests return the same runtime exactly when their classpaths are
equal (different classpaths give runtimes at different addresses), with one VM creation
per distinct classpath. -/
theorem getJVM_registry (host : Host) :
    (∀ (self : JNI) (p : Process) (c : String) (v v2 : Bool) (j : JVM) (self1 : JNI)
        (p1 : Process), JNI.getJVM host self c v p = (.ok j, self1, p1) →
        JNI.getJVM host self1 c v2 p1 = (.ok j, self1, p1)) ∧
    (∀ (self : JNI) (p : Process) (c : String) (v : Bool) (k : String) (j : JVM),
        self.jvms.at k = some j → (JNI.getJVM host self c v p).2.1.jvms.at k = some j) ∧
    (∀ (rs : List (String × Bool)),
        (∀ r ∈ (JNI.requests host rs JNI.getInstance Process.init).1, succeeded r = true) →
        (∀ (i j : Nat) (a b : String × Bool) (x y : JVM),
          rs[i]? = some a → rs[j]? = some b →
          (JNI.requests host rs JNI.getInstance Process.init).1[i]? = some (.ok x) →
          (JNI.requests host rs JNI.getInstance Process.init).1[j]? = some (.ok y) →
          (a.1 = b.1 → x = y) ∧ (a.1 ≠ b.1 → x.addr ≠ y.addr)) ∧
        (JNI.requests host rs JNI.getInstance Process.init).2.2.creations.length
          = (rs.map Prod.fst).dedup.length) := by
  refine ⟨?_, ?_, ?_⟩
  · intro self p c v v2 j self1 p1 h
    apply getJVM_hit
    cases hat : self.jvms.at c with
    | some j0 =>
      rw [getJVM_hit host self c v p j0 hat] at h
      simp only [Prod.mk.injEq, Except.ok.injEq] at h
      obtain ⟨h1, h2, _⟩ := h
      rw [← h2, ← h1]
      exact hat
    | none =>
      rw [getJVM_miss host self c v p hat] at h
      by_cases hs : (host.JNI_CreateJavaVM p.creations (JVM.options c v)).status = 0
      · simp only [hs, if_true, Prod.mk.injEq, Except.ok.injEq] at h
        obtain ⟨h1, h2, _⟩ := h
        rw [← h2, ← h1]
        exact at_assign_self _ _ _
      · simp [hs] at h
  · intro self p c v k j hk
    cases hat : self.jvms.at c with
    | some j0 =>
      rw [getJVM_hit host self c v p j0 hat]
      exact hk
    | none =>
      rw [getJVM_miss host self c v p hat]
      by_cases hs : (host.JNI_CreateJavaVM p.creations (JVM.options c v)).status = 0
      · simp only [hs, if_true]
        have hkc : k ≠ c := by
          rintro rfl
          rw [hat] at hk
          cases hk
        rw [at_assign_ne _ _ _ _ hkc]
        exact hk
      · simp only [hs, if_false]
        exact hk
  · intro rs hok
    obtain ⟨⟨_, hinj, hnd, hlen⟩, _, hret, hkeys⟩ :=
      requests_spec host rs JNI.getInstance Process.init regInv_init hok
    refine ⟨?_, ?_⟩
    · intro i j a b x y ha hb hx hy
      have hxa := hret i a x ha hx
      have hyb := hret j b y hb hy
      refine ⟨?_, ?_⟩
      · intro hab
        rw [hab, hyb] at hxa
        cases hxa
        rfl
      · intro hab hadd
        exact hab (hinj _ _ _ _ hxa hyb hadd)
    · rw [hlen]
      have e1 : (JNI.requests host rs JNI.getInstance Process.init).2.1.jvms.length
          = (JNI.requests host rs JNI.getInstance Process.init).2.1.jvms.keys.length := by
        simp [StdMap.keys]
      rw [e1, ← List.toFinset_card_of_nodup hnd, ← List.card_toFinset]
      congr 1
      ext x
      simp only [List.mem_toFinset]
      rw [hkeys x]
      simp [JNI.getInstance, StdMap.keys]

/-- C4 on three requests (`a`, `b`, `a` again): the first and third return the same
runtime, the second one at another address, and the VM was created twice. -/
theorem getJVM_registry_witness :
    (∀ x y : JVM,
      (JNI.requests Host.alwaysOk [("a", false), ("b", true), ("a", true)]
        JNI.getInstance Process.init).1[0]? = some (.ok x) →
      (JNI.requests Host.alwaysOk [("a", false), ("b", true), ("a", true)]
        JNI.getInstance Process.init).1[2]? = some (.ok y) →
      (("a", false).1 = ("a", true).1 → x = y) ∧ (("a", false).1 ≠ ("a", true).1 → x.addr ≠ y.addr)) ∧
    (JNI.requests Host.alwaysOk [("a", false), ("b", true), ("a", true)]
        JNI.getInstance Process.init).2.2.creations.length = 2 :=
  ⟨fun x y hx hy =>
      ((getJVM_registry Host.alwaysOk).2.2 [("a", false), ("b", true), ("a", true)]
        (by decide)).1 0 2 ("a", false) ("a", true) x y rfl rfl hx hy,
    ((getJVM_registry Host.alwaysOk).2.2 [("a", false), ("b", true), ("a", true)]
        (by decide)).2.trans (by decide)⟩

/-- C5: constructing a runtime throws (and then throws "JVM Creation failed") exactly
when `JNI_CreateJavaVM` returns a non-zero status; a `getJVM` for an uncached classpath
whose construction fails passes the exception on and leaves the registry as it was, so
the same request made again invokes `JNI_CreateJavaVM` once more. -/
theorem getJVM_creation_failure (host : Host) :
    (∀ (libPath : String) (verbose : Bool) (addr : Nat) (p : Process),
      ((JVM.create host libPath verbose addr p).1 = .error "JVM Creation failed" ↔
        (host.JNI_CreateJavaVM p.creations (JVM.options libPath verbose)).status ≠ 0) ∧
      (succeeded (JVM.create host libPath verbose addr p).1 = false ↔
        (host.JNI_CreateJavaVM p.creations (JVM.options libPath verbose)).status ≠ 0)) ∧
    (∀ (self : JNI) (p : Process) (c : String) (v : Bool),
      self.jvms.at c = none →
      (host.JNI_CreateJavaVM p.creations (JVM.options c v)).status ≠ 0 →
      (JNI.getJVM host self c v p).1 = .error "JVM Creation failed" ∧
      (JNI.getJVM host self c v p).2.1 = self ∧
      (JNI.getJVM host self c v p).2.1.jvms.at c = none ∧
      (JNI.getJVM host self c v p).2.2.creations = p.creations ++ [JVM.options c v] ∧
      ∀ v2 : Bool,
        (JNI.getJVM host (JNI.getJVM host self c v p).2.1 c v2
          (JNI.getJVM host self c v p).2.2).2.2.creations
          = p.creations ++ [JVM.options c v] ++ [JVM.options c v2]) := by
  refine ⟨?_, ?_⟩
  · intro libPath verbose addr p
    by_cases hs : (host.JNI_CreateJavaVM p.creations (JVM.options libPath verbose)).status = 0
    · simp [JVM.create, JNI_OK, hs, succeeded]
    · have hs2 : ¬ 0 = (host.JNI_CreateJavaVM p.creations (JVM.options libPath verbose)).status :=
        fun e => hs e.symm
      simp [JVM.create, JNI_OK, hs, hs2, succeeded]
  · intro self p c v hat hs
    rw [getJVM_miss host self c v p hat, if_neg hs]
    refine ⟨rfl, rfl, hat, rfl, ?_⟩
    intro v2
    show (JNI.getJVM host self c v2 _).2.2.creations = _
    rw [getJVM_miss host self c v2 _ hat]
    split <;> rfl

/-- C5 on a host whose first creation fails: the request for `./classes` throws, the
registry stays empty, and the repeated request creates the VM again. -/
theorem getJVM_creation_failure_witness :
    (JNI.getJVM Host.failsOnce JNI.getInstance "./classes" false Process.init).1
      = .error "JVM Creation failed" ∧
    (JNI.getJVM Host.failsOnce JNI.getInstance "./classes" false Process.init).2.1
      = JNI.getInstance ∧
    (JNI.getJVM Host.failsOnce
        (JNI.getJVM Host.failsOnce JNI.getInstance "./classes" false Process.init).2.1
        "./classes" false
        (JNI.getJVM Host.failsOnce JNI.getInstance "./classes" false Process.init).2.2
      ).2.2.creations
      = Process.init.creations ++ [JVM.options "./classes" false]
          ++ [JVM.options "./classes" false] :=
  have h := (getJVM_creation_failure Host.failsOnce).2 JNI.getInstance Process.init
    "./classes" false rfl (by decide)
  ⟨h.1, h.2.1, h.2.2.2.2 false⟩

/-! ## `JVM::getClass` -/

theorem getClass_miss_run (rt : Runtime) (self : JVM) (classPath : String) (w : World)
    (h : self.classesCache.at classPath = none) :
    JVM.getClass rt self classPath w =
      Result.ok
        ({ methodCache := [], classPath := replace classPath '.' '/',
           classId := (rt.result w.trace (.FindClass (replace classPath '.' '/'))).toNat },
         { self with
           classesCache :=
             self.classesCache.assign classPath
               { methodCache := [], classPath := replace classPath '.' '/',
                 classId := (rt.result w.trace
                   (.FindClass (replace classPath '.' '/'))).toNat } })
        { trace := w.trace ++ [Event.call (.FindClass (replace classPath '.' '/')),
            Event.check "JavaClass::JavaClass FindClass"],
          pending := false } := by
  simp [JVM.getClass, h, bind_run, JniM.bind, withEnv_run, pure_run]

/-- C6, the code at the failing input: on a runtime whose class lookup returns null (with
an exception pending), `getClass("no.such.Class")` throws nothing; it returns a handle
whose class reference is null, stores it in the cache, and the exception check has
cleared the pending exception; on no runtime and for no classpath does `getClass` throw. -/
theorem getClass_null_lookup_returns_handle :
    JVM.getClass Runtime.knowsNothing JVM.fresh "no.such.Class" World.init =
      Result.ok
        ({ methodCache := [], classPath := "no/such/Class", classId := 0 },
         { addr := 1, env := 1, jvm := 1,
           classesCache :=
             [("no.such.Class", { methodCache := [], classPath := "no/such/Class", classId := 0 })] })
        { trace := [Event.call (.FindClass "no/such/Class"),
            Event.check "JavaClass::JavaClass FindClass"],
          pending := false } ∧
    (∀ (rt : Runtime) (self : JVM) (classPath : String) (w : World),
      ∃ (h : JavaClass) (self1 : JVM) (w1 : World),
        JVM.getClass rt self classPath w = Result.ok (h, self1) w1) := by
  refine ⟨?_, ?_⟩
  · rw [getClass_miss_run Runtime.knowsNothing JVM.fresh "no.such.Class" World.init rfl]
    decide
  · intro rt self classPath w
    cases h : self.classesCache.at classPath with
    | some cached => exact ⟨cached, self, w, by simp only [JVM.getClass, h]; rfl⟩
    | none => exact ⟨_, _, _, getClass_miss_run rt self classPath w h⟩

/-! ## Method-identifier caches -/

theorem class_resolve_run (rt : Runtime) (self : JavaClass) (q : Resolution) (w : World)
    (sig : String) (hs : q.signature = some sig) :
    self.resolve rt q w =
      match self.methodCache.at q.name with
      | some methodId => Result.ok (methodId, self) w
      | none =>
        Result.ok
          ((rt.result w.trace (.GetStaticMethodID self.classId q.name sig)).toNat,
           { self with
             methodCache :=
               self.methodCache.assign q.name
                 (rt.result w.trace (.GetStaticMethodID self.classId q.name sig)).toNat })
          { trace := w.trace ++ [Event.call (.GetStaticMethodID self.classId q.name sig)],
            pending := w.pending ||
              rt.raises w.trace (.GetStaticMethodID self.classId q.name sig) } := by
  unfold Resolution.signature at hs
  unfold JavaClass.resolve
  cases hr : q.returnType with
  | some r =>
    simp only [hr] at hs
    simp only [JavaClass.getStaticMethodID, hs]
    cases self.methodCache.at q.name <;> rfl
  | none =>
    simp only [hr] at hs
    simp only [JavaClass.getStaticVoidMethodID, hs]
    cases self.methodCache.at q.name <;> rfl

theorem class_resolve_illFormed (rt : Runtime) (self : JavaClass) (q : Resolution) (w : World)
    (hs : q.signature = none) : ∃ why, self.resolve rt q w = Result.illFormed why := by
  unfold Resolution.signature at hs
  unfold JavaClass.resolve
  cases hr : q.returnType with
  | some r =>
    simp only [hr] at hs
    exact ⟨_, by simp only [JavaClass.getStaticMethodID, hs]; rfl⟩
  | none =>
    simp only [hr] at hs
    exact ⟨_, by simp only [JavaClass.getStaticVoidMethodID, hs]; rfl⟩

theorem obj_resolve_run (rt : Runtime) (self : JavaObj) (q : Resolution) (w : World)
    (sig : String) (hs : q.signature = some sig) :
    self.resolve rt q w =
      match self.methodCache.at q.name with
      | some methodId => Result.ok (methodId, self) w
      | none =>
        Result.ok
          ((rt.result w.trace (.GetMethodID self.base.classId q.name sig)).toNat,
           { self with
             methodCache :=
               self.methodCache.assign q.name
                 (rt.result w.trace (.GetMethodID self.base.classId q.name sig)).toNat })
          { trace := w.trace ++ [Event.call (.GetMethodID self.base.classId q.name sig)],
            pending := w.pending ||
              rt.raises w.trace (.GetMethodID self.base.classId q.name sig) } := by
  unfold Resolution.signature at hs
  unfold JavaObj.resolve
  cases hr : q.returnType with
  | some r =>
    simp only [hr] at hs
    simp only [JavaObj.getMethodID, hs, JavaObj.getMethodIDSig]
    cases self.methodCache.at q.name <;> rfl
  | none =>
    simp only [hr] at hs
    simp only [JavaObj.getVoidMethodID, hs, JavaObj.getMethodIDSig]
    cases self.methodCache.at q.name <;> rfl

theorem obj_resolve_illFormed (rt : Runtime) (self : JavaObj) (q : Resolution) (w : World)
    (hs : q.signature = none) : ∃ why, self.resolve rt q w = Result.illFormed why := by
  unfold Resolution.signature at hs
  unfold JavaObj.resolve
  cases hr : q.returnType with
  | some r =>
    simp only [hr] at hs
    exact ⟨_, by simp only [JavaObj.getMethodID, hs]; rfl⟩
  | none =>
    simp only [hr] at hs
    exact ⟨_, by simp only [JavaObj.getVoidMethodID, hs]; rfl⟩

theorem class_resolve_post (rt : Runtime) (self : JavaClass) (q : Resolution) (w : World)
    (id : Nat) (h1 : JavaClass) (w1 : World)
    (h : self.resolve rt q w = Result.ok (id, h1) w1) :
    h1.methodCache.at q.name = some id ∧
    ∀ k v, self.methodCache.at k = some v → h1.methodCache.at k = some v := by
  cases hs : q.signature with
  | none =>
    obtain ⟨why, hw⟩ := class_resolve_illFormed rt self q w hs
    rw [hw] at h
    cases h
  | some sig =>
    rw [class_resolve_run rt self q w sig hs] at h
    cases hat : self.methodCache.at q.name with
    | some m =>
      simp only [hat, Result.ok.injEq, Prod.mk.injEq] at h
      obtain ⟨⟨h1a, h1b⟩, _⟩ := h
      subst h1a h1b
      exact ⟨hat, fun k v hk => hk⟩
    | none =>
      simp only [hat, Result.ok.injEq, Prod.mk.injEq] at h
      obtain ⟨⟨h1a, h1b⟩, _⟩ := h
      subst h1a h1b
      refine ⟨at_assign_self _ _ _, ?_⟩
      intro k v hk
      have hne : k ≠ q.name := by
        rintro rfl
        rw [hat] at hk
        cases hk
      show (self.methodCache.assign q.name _).at k = some v
      rw [at_assign_ne _ _ _ _ hne]
      exact hk

theorem class_resolveAll_keeps (rt : Runtime) (qs : List Resolution) :
    ∀ (self : JavaClass) (w : World) (h2 : JavaClass) (w2 : World),
    JavaClass.resolveAll rt qs self w = Result.ok h2 w2 →
    ∀ k v, self.methodCache.at k = some v → h2.methodCache.at k = some v := by
  induction qs with
  | nil =>
    intro self w h2 w2 h k v hk
    simp only [JavaClass.resolveAll, pure_run, Result.ok.injEq] at h
    rw [← h.1]
    exact hk
  | cons q qs ih =>
    intro self w h2 w2 h k v hk
    simp only [JavaClass.resolveAll, bind_run, JniM.bind] at h
    cases hr : self.resolve rt q w with
    | ok a w1 =>
      obtain ⟨id, h1⟩ := a
      simp only [hr] at h
      exact ih h1 w1 h2 w2 h k v ((class_resolve_post rt self q w id h1 w1 hr).2 k v hk)
    | thrown what w1 => simp [hr] at h
    | illFormed why => simp [hr] at h

theorem obj_resolve_post (rt : Runtime) (self : JavaObj) (q : Resolution) (w : World)
    (id : Nat) (h1 : JavaObj) (w1 : World)
    (h : self.resolve rt q w = Result.ok (id, h1) w1) :
    h1.methodCache.at q.name = some id ∧
    ∀ k v, self.methodCache.at k = some v → h1.methodCache.at k = some v := by
  cases hs : q.signature with
  | none =>
    obtain ⟨why, hw⟩ := obj_resolve_illFormed rt self q w hs
    rw [hw] at h
    cases h
  | some sig =>
    rw [obj_resolve_run rt self q w sig hs] at h
    cases hat : self.methodCache.at q.name with
    | some m =>
      simp only [hat, Result.ok.injEq, Prod.mk.injEq] at h
      obtain ⟨⟨h1a, h1b⟩, _⟩ := h
      subst h1a h1b
      exact ⟨hat, fun k v hk => hk⟩
    | none =>
      simp only [hat, Result.ok.injEq, Prod.mk.injEq] at h
      obtain ⟨⟨h1a, h1b⟩, _⟩ := h
      subst h1a h1b
      refine ⟨at_assign_self _ _ _, ?_⟩
      intro k v hk
      have hne : k ≠ q.name := by
        rintro rfl
        rw [hat] at hk
        cases hk
      show (self.methodCache.assign q.name _).at k = some v
      rw [at_assign_ne _ _ _ _ hne]
      exact hk

theorem obj_resolveAll_keeps (rt : Runtime) (qs : List Resolution) :
    ∀ (self : JavaObj) (w : World) (h2 : JavaObj) (w2 : World),
    JavaObj.resolveAll rt qs self w = Result.ok h2 w2 →
    ∀ k v, self.methodCache.at k = some v → h2.methodCache.at k = some v := by
  induction qs with
  | nil =>
    intro self w h2 w2 h k v hk
    simp only [JavaObj.resolveAll, pure_run, Result.ok.injEq] at h
    rw [← h.1]
    exact hk
  | cons q qs ih =>
    intro self w h2 w2 h k v hk
    simp only [JavaObj.resolveAll, bind_run, JniM.bind] at h
    cases hr : self.resolve rt q w with
    | ok a w1 =>
      obtain ⟨id, h1⟩ := a
      simp only [hr] at h
      exact ih h1 w1 h2 w2 h k v ((obj_resolve_post rt self q w id h1 w1 hr).2 k v hk)
    | thrown what w1 => simp [hr] at h
    | illFormed why => simp [hr] at h

/-- C7: once a method name was resolved on a class handle (static cache) or on an
instance handle (instance cache), then after any further resolutions on that handle a
resolution of the same name returns the identifier of the first one and leaves the
world, hence the trace of runtime calls, and the handle unchanged, whatever return
marker and arguments it is made with. -/
theorem methodCache_keyed_by_name (rt : Runtime) :
    (∀ (h : JavaClass) (w : World) (q : Resolution) (between : List Resolution)
        (q2 : Resolution) (sig2 : String) (id : Nat) (h1 h2 : JavaClass) (w1 w2 : World),
      h.resolve rt q w = Result.ok (id, h1) w1 →
      JavaClass.resolveAll rt between h1 w1 = Result.ok h2 w2 →
      q2.name = q.name → q2.signature = some sig2 →
      ∀ w3 : World, h2.resolve rt q2 w3 = Result.ok (id, h2) w3) ∧
    (∀ (h : JavaObj) (w : World) (q : Resolution) (between : List Resolution)
        (q2 : Resolution) (sig2 : String) (id : Nat) (h1 h2 : JavaObj) (w1 w2 : World),
      h.resolve rt q w = Result.ok (id, h1) w1 →
      JavaObj.resolveAll rt between h1 w1 = Result.ok h2 w2 →
      q2.name = q.name → q2.signature = some sig2 →
      ∀ w3 : World, h2.resolve rt q2 w3 = Result.ok (id, h2) w3) := by
  refine ⟨?_, ?_⟩
  · intro h w q between q2 sig2 id h1 h2 w1 w2 hq hb hname hsig w3
    have hc := class_resolveAll_keeps rt between h1 w1 h2 w2 hb q.name id
      (class_resolve_post rt h q w id h1 w1 hq).1
    rw [class_resolve_run rt h2 q2 w3 sig2 hsig, hname, hc]
  · intro h w q between q2 sig2 id h1 h2 w1 w2 hq hb hname hsig w3
    have hc := obj_resolveAll_keeps rt between h1 w1 h2 w2 hb q.name id
      (obj_resolve_post rt h q w id h1 w1 hq).1
    rw [obj_resolve_run rt h2 q2 w3 sig2 hsig, hname, hc]

/-- C7 on `java.lang.Math`: `max` resolved with signature `(II)I` gets identifier 105;
after `min` was resolved too, resolving `max` with signature `(FF)F` returns 105 again
and adds no event to the trace. -/
theorem methodCache_keyed_by_name_witness :
    JavaClass.resolve Runtime.bySignature
      { methodCache := [("max", 105), ("min", 104)], classPath := "java/lang/Math", classId := 7 }
      { name := "max", returnType := some (.float 0), args := [.float 0, .float 0] }
      { trace := [Event.call (.GetStaticMethodID 7 "max" "(II)I"),
          Event.call (.GetStaticMethodID 7 "min" "(I)V")], pending := false }
    = Result.ok
      (105, { methodCache := [("max", 105), ("min", 104)], classPath := "java/lang/Math",
              classId := 7 })
      { trace := [Event.call (.GetStaticMethodID 7 "max" "(II)I"),
          Event.call (.GetStaticMethodID 7 "min" "(I)V")], pending := false } :=
  (methodCache_keyed_by_name Runtime.bySignature).1 JavaClass.math World.init
    { name := "max", returnType := some (.int32 0), args := [.int32 3, .int32 5] }
    [{ name := "min", returnType := none, args := [.int32 1] }]
    { name := "max", returnType := some (.float 0), args := [.float 0, .float 0] }
    "(FF)F" 105
    { methodCache := [("max", 105)], classPath := "java/lang/Math", classId := 7 }
    { methodCache := [("max", 105), ("min", 104)], classPath := "java/lang/Math", classId := 7 }
    { trace := [Event.call (.GetStaticMethodID 7 "max" "(II)I")], pending := false }
    { trace := [Event.call (.GetStaticMethodID 7 "max" "(II)I"),
        Event.call (.GetStaticMethodID 7 "min" "(I)V")], pending := false }
    (by decide) (by decide) rfl (by decide) _

/-! ## Static calls and the primitive they use -/

theorem static_call_int32_illFormed (rt : Runtime) (h : JavaClass) (name : String)
    (a b : Int) (w : World) :
    h.call rt name (.int32 0) [.int32 a, .int32 b] w
      = Result.illFormed "JavaClass::fromJObject: ReturnType has no getClassPath()" := by
  have hsig : signature (.int32 0) [.int32 a, .int32 b] = some "(II)I" := rfl
  simp only [JavaClass.call, JavaClass.getStaticMethodID, hsig, bind_run, JniM.bind]
  cases h.methodCache.at name <;> rfl

/-- C8, the code at the failing input: a static call with an `int32_t` return marker
takes the primary `callStaticMethod` template (the object primitive followed by
`fromJObject`), which has no instance for `int32_t`; so `max` with marker `int32_t` and
arguments 3 and 5 on `java.lang.Math` is no program and yields no 5, on any runtime
and in particular on one whose `Int` primitive computes the maximum. -/
theorem static_call_int32_no_numeric_primitive :
    (∀ (rt : Runtime) (h : JavaClass) (name : String) (a b : Int) (w : World),
      h.call rt name (.int32 0) [.int32 a, .int32 b] w
        = Result.illFormed "JavaClass::fromJObject: ReturnType has no getClassPath()") ∧
    (JavaClass.withEnv Runtime.javaMath "java.lang.Math" >>= fun h =>
        h.call Runtime.javaMath "max" (.int32 0) [.int32 3, .int32 5]) World.init
      = Result.illFormed "JavaClass::fromJObject: ReturnType has no getClassPath()" ∧
    (∀ (rt : Runtime) (h : JavaClass) (mid : Nat) (args : Option (List JValue)) (w : World),
      ∃ r w1, h.callStaticMethod rt mid (.float 0) args w = Result.ok r w1 ∧
        w1.trace = w.trace ++ [Event.call (.CallStaticMethodA .Float h.classId mid args)]) ∧
    (∀ (rt : Runtime) (h : JavaClass) (mid : Nat) (args : Option (List JValue)) (w : World)
        (marker : String),
      ∃ r w1, h.callStaticMethod rt mid (.string marker) args w = Result.ok r w1 ∧
        w1.trace = w.trace ++ [Event.call (.CallStaticMethodA .Object h.classId mid args),
          Event.check "JavaClass::callStaticMethod CallStaticObjectMethodA",
          Event.call (.GetStringUTFChars
            (rt.result w.trace (.CallStaticMethodA .Object h.classId mid args)).toNat)]) := by
  refine ⟨static_call_int32_illFormed, ?_, ?_, ?_⟩
  · rw [bind_run]
    simp only [JniM.bind, withEnv_run]
    exact static_call_int32_illFormed _ _ _ _ _ _
  · intro rt h mid args w
    exact ⟨_, _, rfl, rfl⟩
  · intro rt h mid args w marker
    refine ⟨_, _, rfl, ?_⟩
    simp

/-! ## Direct buffers -/

theorem createDirectBuffer_split (rt : Runtime) (b : HostBuffer) (w : World) :
    ∃ (w0 : World),
      (∃ tail : List Event, w0.trace =
        w.trace ++ Event.call (.NewDirectByteBuffer b.data (b.size * b.valueType.sizeof))
          :: tail ∧ tail.map Event.label = directBufferSetup) ∧
      JavaObj.createDirectBuffer rt b w =
        (convertBufferType rt b.valueType
            (rt.result w.trace
              (.NewDirectByteBuffer b.data (b.size * b.valueType.sizeof))).toNat >>=
          fun c => JavaObj.withEnv rt "java.nio.Buffer" c) w0 := by
  refine ⟨_, ?_, rfl⟩
  simp only [List.append_assoc, List.singleton_append, List.cons_append, List.nil_append]
  exact ⟨_, rfl, rfl⟩

theorem convertBufferTypeHelper_run (rt : Runtime) (t : ElemType) (buffer : Nat) (w : World) :
    ∃ pend : Bool, convertBufferTypeHelper rt t buffer w =
      Result.ok
        (rt.result
          (w.trace ++ [Event.call (.GetObjectClass buffer),
            Event.call (.GetMethodID (rt.result w.trace (.GetObjectClass buffer)).toNat
              (getBufferName t "as" "") (getBufferName t "()Ljava/nio/" ";")),
            Event.check "convertBufferTypeHelper GetMethodID"])
          (.CallObjectMethod buffer
            (rt.result (w.trace ++ [Event.call (.GetObjectClass buffer)])
              (.GetMethodID (rt.result w.trace (.GetObjectClass buffer)).toNat
                (getBufferName t "as" "") (getBufferName t "()Ljava/nio/" ";"))).toNat)).toNat
        { trace := w.trace ++ [Event.call (.GetObjectClass buffer),
            Event.call (.GetMethodID (rt.result w.trace (.GetObjectClass buffer)).toNat
              (getBufferName t "as" "") (getBufferName t "()Ljava/nio/" ";")),
            Event.check "convertBufferTypeHelper GetMethodID",
            Event.call (.CallObjectMethod buffer
              (rt.result (w.trace ++ [Event.call (.GetObjectClass buffer)])
                (.GetMethodID (rt.result w.trace (.GetObjectClass buffer)).toNat
                  (getBufferName t "as" "") (getBufferName t "()Ljava/nio/" ";"))).toNat),
            Event.check "convertBufferTypeHelper CallObjectMethod"],
          pending := pend } := by
  refine ⟨false, ?_⟩
  simp [convertBufferTypeHelper, bind_run, JniM.bind, jni, checkExceptions, pure_run]

theorem linkBuffer_run (rt : Runtime) (self : JavaObj) (fieldName : String) (b : HostBuffer)
    (w : World) :
    ∃ (w1 : World),
      (∃ tail : List Event, w1.trace =
        w.trace ++ Event.call (.GetFieldID self.base.classId fieldName
          (getBufferName b.valueType "Ljava/nio/" ";")) :: tail) ∧
      JavaObj.linkBuffer rt self fieldName b w = Result.ok () w1 := by
  obtain ⟨t, d, n⟩ := b
  cases t <;>
    (refine ⟨_, ?_, rfl⟩
     simp only [List.append_assoc, List.singleton_append, List.cons_append, List.nil_append]
     exact ⟨_, rfl⟩)

/-- C9, counterexample: `int32_t` is a 4-byte integer element type, yet a buffer of four
`int32_t` is not converted: the field signature is `Ljava/nio/ByteBuffer;`,
`convertBufferType` returns the byte buffer as it is, and `createDirectBuffer` makes no
`as...Buffer` lookup or call (the returned handle holds the byte buffer's reference). -/
theorem signed_elements_keep_byte_buffer :
    ElemType.sizeof .int32 = 4 ∧
    getBufferName .int32 "Ljava/nio/" ";" = "Ljava/nio/ByteBuffer;" ∧
    getBufferName .int32 "Ljava/nio/" ";" ≠ "Ljava/nio/IntBuffer;" ∧
    convertBufferType Runtime.counting .int32 1 World.init = Result.ok 1 World.init ∧
    (JavaObj.createDirectBuffer Runtime.counting
        { valueType := .int32, data := 4096, size := 4 } World.init).trace.map Event.label
      = ["NewDirectByteBuffer"] ++ directBufferSetup ++ ["FindClass", "check"] ∧
    (∃ w1, JavaObj.createDirectBuffer Runtime.counting
        { valueType := .int32, data := 4096, size := 4 } World.init
      = Result.ok
          { base := { methodCache := [], classPath := "java/nio/Buffer", classId := 20 },
            objId := 1, methodCache := [] } w1) := by
  refine ⟨rfl, by decide, by decide, rfl, by decide, ⟨_, rfl⟩⟩

/-- C9, amended: `createDirectBuffer` first requests a byte buffer of `size * sizeof`
bytes over the host data, wraps and orders it, then applies `convertBufferType` to that
byte buffer and wraps the outcome; for `uint16_t`, `uint32_t` and `uint64_t` the
conversion looks up and calls `asShortBuffer` / `asIntBuffer` / `asLongBuffer` (returning
`ShortBuffer` / `IntBuffer` / `LongBuffer`) on it, for every other element type it
returns the byte buffer unchanged without a call; `linkBuffer` first resolves the field
with signature `Ljava/nio/<View>;` of the same view. -/
theorem directBuffer_views (rt : Runtime) :
    (∀ (b : HostBuffer) (w : World), ∃ (w0 : World),
      (∃ tail : List Event, w0.trace =
        w.trace ++ Event.call (.NewDirectByteBuffer b.data (b.size * b.valueType.sizeof))
          :: tail ∧ tail.map Event.label = directBufferSetup) ∧
      JavaObj.createDirectBuffer rt b w =
        (convertBufferType rt b.valueType
            (rt.result w.trace
              (.NewDirectByteBuffer b.data (b.size * b.valueType.sizeof))).toNat >>=
          fun c => JavaObj.withEnv rt "java.nio.Buffer" c) w0) ∧
    (∀ (t : ElemType) (buffer : Nat) (w : World), t = .uint16 ∨ t = .uint32 ∨ t = .uint64 →
      ∃ pend : Bool, convertBufferType rt t buffer w =
        Result.ok
          (rt.result
            (w.trace ++ [Event.call (.GetObjectClass buffer),
              Event.call (.GetMethodID (rt.result w.trace (.GetObjectClass buffer)).toNat
                (getBufferName t "as" "") (getBufferName t "()Ljava/nio/" ";")),
              Event.check "convertBufferTypeHelper GetMethodID"])
            (.CallObjectMethod buffer
              (rt.result (w.trace ++ [Event.call (.GetObjectClass buffer)])
                (.GetMethodID (rt.result w.trace (.GetObjectClass buffer)).toNat
                  (getBufferName t "as" "") (getBufferName t "()Ljava/nio/" ";"))).toNat)).toNat
          { trace := w.trace ++ [Event.call (.GetObjectClass buffer),
              Event.call (.GetMethodID (rt.result w.trace (.GetObjectClass buffer)).toNat
                (getBufferName t "as" "") (getBufferName t "()Ljava/nio/" ";")),
              Event.check "convertBufferTypeHelper GetMethodID",
              Event.call (.CallObjectMethod buffer
                (rt.result (w.trace ++ [Event.call (.GetObjectClass buffer)])
                  (.GetMethodID (rt.result w.trace (.GetObjectClass buffer)).toNat
                    (getBufferName t "as" "") (getBufferName t "()Ljava/nio/" ";"))).toNat),
              Event.check "convertBufferTypeHelper CallObjectMethod"],
            pending := pend }) ∧
    (∀ (t : ElemType) (buffer : Nat) (w : World), t ≠ .uint16 → t ≠ .uint32 → t ≠ .uint64 →
      convertBufferType rt t buffer w = Result.ok buffer w) ∧
    (getBufferName .uint16 "as" "" = "asShortBuffer" ∧
      getBufferName .uint32 "as" "" = "asIntBuffer" ∧
      getBufferName .uint64 "as" "" = "asLongBuffer" ∧
      getBufferName .uint16 "()Ljava/nio/" ";" = "()Ljava/nio/ShortBuffer;" ∧
      getBufferName .uint32 "()Ljava/nio/" ";" = "()Ljava/nio/IntBuffer;" ∧
      getBufferName .uint64 "()Ljava/nio/" ";" = "()Ljava/nio/LongBuffer;") ∧
    (getBufferName .uint16 "Ljava/nio/" ";" = "Ljava/nio/ShortBuffer;" ∧
      getBufferName .uint32 "Ljava/nio/" ";" = "Ljava/nio/IntBuffer;" ∧
      getBufferName .uint64 "Ljava/nio/" ";" = "Ljava/nio/LongBuffer;" ∧
      ∀ t : ElemType, t ≠ .uint16 → t ≠ .uint32 → t ≠ .uint64 →
        getBufferName t "Ljava/nio/" ";" = "Ljava/nio/ByteBuffer;") ∧
    (∀ (self : JavaObj) (fieldName : String) (b : HostBuffer) (w : World), ∃ (w1 : World),
      (∃ tail : List Event, w1.trace =
        w.trace ++ Event.call (.GetFieldID self.base.classId fieldName
          (getBufferName b.valueType "Ljava/nio/" ";")) :: tail) ∧
      JavaObj.linkBuffer rt self fieldName b w = Result.ok () w1) := by
  refine ⟨createDirectBuffer_split rt, ?_, ?_, ?_, ?_, linkBuffer_run rt⟩
  · intro t buffer w ht
    rcases ht with h | h | h <;> subst h <;> exact convertBufferTypeHelper_run rt _ buffer w
  · intro t buffer w h1 h2 h3
    cases t <;> first | rfl | exact absurd rfl h1 | exact absurd rfl h2 | exact absurd rfl h3
  · refine ⟨by decide, by decide, by decide, by decide, by decide, by decide⟩
  · refine ⟨by decide, by decide, by decide, ?_⟩
    intro t h1 h2 h3
    cases t <;> first | rfl | exact absurd rfl h1 | exact absurd rfl h2 | exact absurd rfl h3

/-- C9 amended, at four `uint32_t` elements: the byte buffer is requested with 16
bytes, and the conversion asks for `asIntBuffer` with signature `()Ljava/nio/IntBuffer;`. -/
theorem directBuffer_views_witness :
    (∃ (w0 : World),
      (∃ tail : List Event, w0.trace =
        World.init.trace ++ Event.call (.NewDirectByteBuffer 4096 16) :: tail ∧
        tail.map Event.label = directBufferSetup) ∧
      JavaObj.createDirectBuffer Runtime.counting
          { valueType := .uint32, data := 4096, size := 4 } World.init =
        (convertBufferType Runtime.counting .uint32
            (Runtime.counting.result World.init.trace (.NewDirectByteBuffer 4096 16)).toNat >>=
          fun c => JavaObj.withEnv Runtime.counting "java.nio.Buffer" c) w0) ∧
    (∃ pend : Bool, convertBufferType Runtime.counting .uint32 1 World.init =
      Result.ok 4
        { trace := [Event.call (.GetObjectClass 1),
            Event.call (.GetMethodID 1 "asIntBuffer" "()Ljava/nio/IntBuffer;"),
            Event.check "convertBufferTypeHelper GetMethodID",
            Event.call (.CallObjectMethod 1 2),
            Event.check "convertBufferTypeHelper CallObjectMethod"],
          pending := pend }) ∧
    convertBufferType Runtime.counting .uint8 1 World.init = Result.ok 1 World.init := by
  refine ⟨(directBuffer_views Runtime.counting).1
      { valueType := .uint32, data := 4096, size := 4 } World.init, ?_,
    (directBuffer_views Runtime.counting).2.2.1 .uint8 1 World.init
      (by decide) (by decide) (by decide)⟩
  obtain ⟨pend, h⟩ :=
    (directBuffer_views Runtime.counting).2.1 .uint32 1 World.init (Or.inr (Or.inl rfl))
  exact ⟨pend, h.trans rfl⟩

/-! ## Exception checks after runtime calls -/

/-- C10, the code at the failing input: the static call `parseFloat` with a `float`
marker and one string argument runs `NewStringUTF` (from `toJvalue`) and then
`CallStaticFloatMethodA` with no exception check between them; and
`createDirectBuffer` runs `NewDirectByteBuffer` and then `FindClass` with no check
between them. -/
theorem string_argument_call_is_unchecked :
    (JavaClass.call Runtime.counting JavaClass.javaFloat "parseFloat" (.float 0)
        [.string "1.5"] World.init).trace
      = [Event.call (.GetStaticMethodID 7 "parseFloat" "(Ljava/lang/String;)F"),
         Event.check "JavaClass::call GetStaticMethodId",
         Event.call (.NewStringUTF "1.5"),
         Event.call (.CallStaticMethodA .Float 7 1 (some [.l 3])),
         Event.check "JavaClass::call callStaticMethod"] ∧
    everyCallChecked
      (JavaClass.call Runtime.counting JavaClass.javaFloat "parseFloat" (.float 0)
        [.string "1.5"] World.init).trace = false ∧
    ((JavaObj.createDirectBuffer Runtime.counting
        { valueType := .uint8, data := 4096, size := 4 } World.init).trace.map Event.label).take 3
      = ["NewDirectByteBuffer", "FindClass", "check"] ∧
    everyCallChecked
      (JavaObj.createDirectBuffer Runtime.counting
        { valueType := .uint8, data := 4096, size := 4 } World.init).trace = false := by
  refine ⟨by decide, by decide, by decide, by decide⟩

/-! ## The marshalled argument array -/

theorem set_at_length (pre rest : List JValue) (x j : JValue) :
    (pre ++ x :: rest).set pre.length j = pre ++ j :: rest := by
  induction pre with
  | nil => rfl
  | cons p pre ih => simp [List.set, ih]

theorem fillJValues_eq (rt : Runtime) (z : JValue) (args : List HostValue) :
    ∀ (pre : List JValue) (w : World),
    fillJValues rt (pre ++ List.replicate args.length z) pre.length args w =
      match claimedJValues rt args w with
      | .ok js w1 => Result.ok (pre ++ js) w1
      | .thrown what w1 => Result.thrown what w1
      | .illFormed why => Result.illFormed why := by
  induction args with
  | nil =>
    intro pre w
    simp [fillJValues, claimedJValues, pure_run]
  | cons a rest ih =>
    intro pre w
    simp only [fillJValues, claimedJValues, bind_run, JniM.bind, List.length_cons,
      List.replicate_succ]
    cases h : toJvalue rt a w with
    | ok j w1 =>
      simp only [set_at_length]
      have e : pre ++ j :: List.replicate rest.length z
          = (pre ++ [j]) ++ List.replicate rest.length z := by simp
      have hl : pre.length + 1 = (pre ++ [j]).length := by simp
      rw [e, hl, ih (pre ++ [j]) w1]
      cases claimedJValues rt rest w1 <;> simp [pure_run]
    | thrown what w1 => rfl
    | illFormed why => rfl

theorem createJValues_eq (rt : Runtime) (arg : HostValue) (args : List HostValue) (w : World) :
    createJValues rt (arg :: args) w =
      match claimedJValues rt (arg :: args) w with
      | .ok js w1 => Result.ok (some js) w1
      | .thrown what w1 => Result.thrown what w1
      | .illFormed why => Result.illFormed why := by
  have h := fillJValues_eq rt (JValue.j 0) (arg :: args) [] w
  simp only [List.nil_append, List.length_nil] at h
  simp only [createJValues, bind_run, JniM.bind, h]
  cases claimedJValues rt (arg :: args) w <;> simp [pure_run]

theorem static_callVoid_run (rt : Runtime) (h : JavaClass) (name : String)
    (args : List HostValue) (sig : String) (w : World) (hs : voidSignature args = some sig) :
    ∃ (h1 : JavaClass) (w1 : World),
      h.callVoid rt name args w = Result.ok h1 w1 ∧
      ∃ (resolution : List Event) (methodId : Nat),
        w1.trace = w.trace ++ resolution ++
          [Event.check "JavaClass::callVoid GetStaticMethodId",
           Event.call (.CallStaticMethodA .Void h.classId methodId none),
           Event.check "JavaClass::callStaticMethodVoid CallStaticVoidMethodA",
           Event.check "JavaClass::call callStaticMethodVoid"] := by
  cases hat : h.methodCache.at name with
  | some methodId =>
    have e : h.callVoid rt name args w = (do
        JavaClass.callVoidById rt h methodId []
        pure h : JniM JavaClass) w := by
      simp only [JavaClass.callVoid, JavaClass.getStaticVoidMethodID, hs, hat, bind_run,
        JniM.bind]
    rw [e]
    exact ⟨_, _, rfl, [], methodId, by simp⟩
  | none =>
    have e : h.callVoid rt name args w = (do
        let methodId ← jni rt (.GetStaticMethodID h.classId name sig)
        JavaClass.callVoidById rt
          { h with methodCache := h.methodCache.assign name methodId.toNat } methodId.toNat []
        pure ({ h with methodCache := h.methodCache.assign name methodId.toNat } : JavaClass)
          : JniM JavaClass) w := by
      simp only [JavaClass.callVoid, JavaClass.getStaticVoidMethodID, hs, hat, bind_run,
        JniM.bind]
      rfl
    rw [e]
    exact ⟨_, _, rfl, [Event.call (.GetStaticMethodID h.classId name sig)],
      (rt.result w.trace (.GetStaticMethodID h.classId name sig)).toNat, by simp⟩

/-- C11, the code at the failing input: `JavaClass::callVoid("exit", int32_t(1))` hands
`CallStaticVoidMethodA` the `nullptr` of the nullary `createJValues()`, not the array
`[toJvalue(1)]` the claim describes, and so does every static void call by name,
whatever its arguments; the instance `callVoid` with the same argument passes the
one-entry array.  Where an operation does call `createJValues(args...)` with at least
one argument, the array is the claimed one. -/
theorem static_callVoid_drops_arguments :
    (JavaClass.callVoid Runtime.counting JavaClass.system "exit" [.int32 1] World.init).trace
      = [Event.call (.GetStaticMethodID 7 "exit" "(I)V"),
         Event.check "JavaClass::callVoid GetStaticMethodId",
         Event.call (.CallStaticMethodA .Void 7 1 none),
         Event.check "JavaClass::callStaticMethodVoid CallStaticVoidMethodA",
         Event.check "JavaClass::call callStaticMethodVoid"] ∧
    claimedJValues Runtime.counting [.int32 1] World.init = Result.ok [.i 1] World.init ∧
    (∀ (rt : Runtime) (h : JavaClass) (name : String) (args : List HostValue) (sig : String)
        (w : World), voidSignature args = some sig →
      ∃ (h1 : JavaClass) (w1 : World),
        h.callVoid rt name args w = Result.ok h1 w1 ∧
        ∃ (resolution : List Event) (methodId : Nat),
          w1.trace = w.trace ++ resolution ++
            [Event.check "JavaClass::callVoid GetStaticMethodId",
             Event.call (.CallStaticMethodA .Void h.classId methodId none),
             Event.check "JavaClass::callStaticMethodVoid CallStaticVoidMethodA",
             Event.check "JavaClass::call callStaticMethodVoid"]) ∧
    (JavaObj.callVoid Runtime.counting JavaObj.sample "add" [.int32 1] World.init).trace
      = [Event.call (.GetMethodID 7 "add" "(I)V"),
         Event.check "JavaObj.callVoid GetMethodId",
         Event.call (.CallMethodA .Void 9 1 (some [.i 1])),
         Event.check "JavaObj.callVoid callVoidMethod"] ∧
    (∀ (rt : Runtime) (arg : HostValue) (args : List HostValue) (w : World),
      createJValues rt (arg :: args) w =
        match claimedJValues rt (arg :: args) w with
        | .ok js w1 => Result.ok (some js) w1
        | .thrown what w1 => Result.thrown what w1
        | .illFormed why => Result.illFormed why) := by
  refine ⟨by decide, by decide, static_callVoid_run, by decide, createJValues_eq⟩

/-! ## Type code against the instance-call primitive -/

/-- C12, the code at the failing input: with a `uint8_t` return marker the method is
resolved with return code `S`, which denotes a short, but `callMethod<uint8_t>` invokes
`CallByteMethodA`, whose return type is byte; an instance call `size` with that marker
resolves `()S` and then calls the byte primitive.  For the other nine types of the
claim the code and the primitive denote the same runtime type. -/
theorem uint8_marker_code_and_primitive_differ :
    getSymbol (.uint8 0) = some "S" ∧
    codeKind "S" = some CallKind.Short ∧
    (JavaObj.call Runtime.counting JavaObj.sample "size" (.uint8 0) [] World.init).trace
      = [Event.call (.GetMethodID 7 "size" "()S"),
         Event.check "JavaObj.call GetMethodId",
         Event.call (.CallMethodA .Byte 9 1 none),
         Event.check "JavaObj.call callMethod"] ∧
    (∀ (rt : Runtime) (self : JavaObj) (methodId : Nat) (args : Option (List JValue))
        (v : Nat) (w : World),
      (self.callMethod rt methodId (.uint8 v) args w).trace
        = w.trace ++ [Event.call (.CallMethodA .Byte self.objId methodId args)]) ∧
    (∀ v : HostValue,
      v.type ∈ [HostType.bool, .int8, .int16, .uint16, .int32, .uint32, .int64, .float,
        .double] →
      ∃ (code : String) (kind : CallKind),
        getSymbol v = some code ∧ codeKind code = some kind ∧
        ∀ (rt : Runtime) (self : JavaObj) (methodId : Nat) (args : Option (List JValue))
          (w : World),
          (self.callMethod rt methodId v args w).trace
            = w.trace ++ [Event.call (.CallMethodA kind self.objId methodId args)]) := by
  refine ⟨rfl, by decide, by decide, fun _ _ _ _ _ _ => rfl, ?_⟩
  intro v hv
  cases v <;> simp [HostValue.type] at hv
  · exact ⟨"Z", .Boolean, rfl, by decide, fun _ _ _ _ _ => rfl⟩
  · exact ⟨"C", .Char, rfl, by decide, fun _ _ _ _ _ => rfl⟩
  · exact ⟨"S", .Short, rfl, by decide, fun _ _ _ _ _ => rfl⟩
  · exact ⟨"I", .Int, rfl, by decide, fun _ _ _ _ _ => rfl⟩
  · exact ⟨"I", .Int, rfl, by decide, fun _ _ _ _ _ => rfl⟩
  · exact ⟨"J", .Long, rfl, by decide, fun _ _ _ _ _ => rfl⟩
  · exact ⟨"J", .Long, rfl, by decide, fun _ _ _ _ _ => rfl⟩
  · exact ⟨"F", .Float, rfl, by decide, fun _ _ _ _ _ => rfl⟩
  · exact ⟨"D", .Double, rfl, by decide, fun _ _ _ _ _ => rfl⟩

end JniPP
